import Mathlib

/-!
# Stream decode pipeline (`pdf_stream.c`)

A shallow embedding of `pdf/pdf_stream.c`: the functions that build the chain
of decode stages for a PDF stream object, and the size estimate used when a
stream is read into memory.

* A `fz_stream` is the term that records which stage constructors were
  applied, innermost first: the codecs and the cipher are external to this
  file of the program, so a stage is represented by the call that built it.
* The document (`pdf_xref`) is threaded through every function as explicit
  state.  It carries a `trace` of the effects the C code performs on
  resources (stages opened and closed, seeks, warnings).
* `fz_throw` is the outcome `throw`, carrying the state at the throw.
-/

namespace PdfStream

/-! ## Objects -/

/-- A parsed PDF object (`fz_obj`), after resolution of indirect references.
An indirect reference is kept as a leaf, for `fz_to_num` and `fz_to_gen`.
Numbers are the integer objects, each holding a C `int`; real numbers are not
represented.  A C pointer `fz_obj *` is an `Option fz_obj`, `none` being
`NULL`. -/
inductive fz_obj where
  | null
  | bool (b : Bool)
  | int (i : Int)
  | string (s : String)
  | name (s : String)
  | array (items : List fz_obj)
  | dict (entries : List (String × fz_obj))
  | indirect (num gen : Int)

/-- Modelled from the spec: `fz_to_name` is declared in fitz.h, outside this
file.  The text of a name object, and the empty string for anything else
(`NULL` included). -/
def fz_to_name : Option fz_obj → String
  | some (.name s) => s
  | _ => ""

/-- Modelled from the spec: `fz_is_name` is declared in fitz.h. -/
def fz_is_name : Option fz_obj → Bool
  | some (.name _) => true
  | _ => false

/-- Modelled from the spec: `fz_is_array` is declared in fitz.h. -/
def fz_is_array : Option fz_obj → Bool
  | some (.array _) => true
  | _ => false

/-- Modelled from the spec: `fz_to_int` is declared in fitz.h.  The value of
an integer object, and 0 for anything else (`NULL` included). -/
def fz_to_int : Option fz_obj → Int
  | some (.int i) => i
  | _ => 0

/-- Modelled from the spec: `fz_array_len` is declared in fitz.h.  The number
of elements of a sequence, and 0 for anything else. -/
def fz_array_len : Option fz_obj → Nat
  | some (.array items) => items.length
  | _ => 0

/-- Modelled from the spec: `fz_array_get` is declared in fitz.h.  The element
at position `i` of a sequence; `NULL` when the object is not a sequence or has
no position `i`. -/
def fz_array_get : Option fz_obj → Nat → Option fz_obj
  | some (.array items), i => items.get? i
  | _, _ => none

/-- Modelled from the spec: `fz_dict_gets` is declared in fitz.h.  The value
stored under `key` in a dictionary; `NULL` when the object is not a dictionary
or has no such key. -/
def fz_dict_gets : Option fz_obj → String → Option fz_obj
  | some (.dict entries), key => entries.lookup key
  | _, _ => none

/-- Modelled from the spec: `fz_dict_getsa` is declared in fitz.h.  The value
under `key`, or else the value under the alias key `abbr`. -/
def fz_dict_getsa (obj : Option fz_obj) (key abbr : String) : Option fz_obj :=
  match fz_dict_gets obj key with
  | some v => some v
  | none => fz_dict_gets obj abbr

/-- Modelled from the spec: `fz_to_num` is declared in fitz.h.  The object
number of an indirect reference, 0 for anything else. -/
def fz_to_num : Option fz_obj → Int
  | some (.indirect num _) => num
  | _ => 0

/-- Modelled from the spec: `fz_to_gen` is declared in fitz.h.  The generation
of an indirect reference, 0 for anything else. -/
def fz_to_gen : Option fz_obj → Int
  | some (.indirect _ gen) => gen
  | _ => 0

/-! ## Streams, buffers, errors -/

/-- The bytes read out of a stream (`fz_buffer`). -/
structure fz_buffer where
  data : List Nat
  deriving DecidableEq, Repr

/-- The document's cipher context (`pdf_crypt`): the key material of the
document-wide cipher, and the key aliases the context can resolve, each with
the key material of its own cipher. -/
structure pdf_crypt where
  key : List Nat
  aliases : List (String × List Nat) := []
  deriving DecidableEq, Repr

/-- Modelled from the spec: `resolve_key_alias(context, alias)` of the cipher
subsystem, which is not in this file: the context ctx to the alias when the
cipher context knows the alias, and none when the alias does not resolve. -/
def resolve_key_alias (crypt : pdf_crypt) (name : String) : Option pdf_crypt :=
  match crypt.aliases.lookup name with
  | some key => some { key := key, aliases := crypt.aliases }
  | none => none

/-- A chain of stages (`fz_stream`): each constructor other than `file` is the
stage returned by the external constructor of the same name, wrapping the
chain it was given. -/
inductive fz_stream where
  | file (fd : Nat)
  | null (chain : fz_stream) (len : Int)
  | crypt (chain : fz_stream) (crypt : pdf_crypt) (num gen : Int)
  | crypt_with_filter (chain : fz_stream) (crypt : pdf_crypt) (name : String) (num gen : Int)
  | ahxd (chain : fz_stream)
  | a85d (chain : fz_stream)
  | faxd (chain : fz_stream) (p : Option fz_obj)
  | dctd (chain : fz_stream) (p : Option fz_obj)
  | rld (chain : fz_stream)
  | flated (chain : fz_stream)
  | lzwd (chain : fz_stream) (p : Option fz_obj)
  | predict (chain : fz_stream) (p : Option fz_obj)
  | jbig2d (chain : fz_stream) (globals : Option fz_buffer)

/-- What `fz_throw` carries. -/
inductive fz_error where
  | object_out_of_range (num gen : Int)
  | not_a_stream
  | cannot_read_raw_stream (num gen : Int)
  | other (msg : String)
  deriving DecidableEq, Repr

/-- An effect on a resource, in the order the code performs it. -/
inductive fz_event where
  | keep (s : fz_stream)
  | opened (s : fz_stream)
  | closed (s : fz_stream)
  | seek (ofs : Int)
  | warn (msg : String)

/-- One entry of the object table (`pdf_xref_entry`): the cached object and
the offset of the stream payload, 0 when the object has no stream. -/
structure pdf_xref_entry where
  obj : Option fz_obj := none
  stm_ofs : Int := 0

/-- The document (`pdf_xref`): the object table and its length, the cipher
context when the document is encrypted, the underlying file and its position,
the trace of effects so far, and the bytes of the underlying file.  A
well-formed document has `len = table.length`. -/
structure pdf_xref where
  len : Int
  table : List pdf_xref_entry
  crypt : Option pdf_crypt := none
  file : fz_stream := .file 0
  file_pos : Int := 0
  trace : List fz_event := []
  file_data : List Nat := []

/-- The result of running a function of the program: it returns a value, or
throws, both with the document state reached; `diverge` stands for a
recursion that was not given enough fuel. -/
inductive fz_outcome (α : Type) where
  | ok (value : α) (xref : pdf_xref)
  | throw (err : fz_error) (xref : pdf_xref)
  | diverge

/-- The behaviour of the collaborators this file calls and does not define:
the object store's `pdf_cache_object`, whether the cipher subsystem's
`pdf_open_crypt` throws for a given object, and `fz_read_all`. -/
structure fz_env where
  pdf_cache_object : pdf_xref → Int → Int → fz_outcome Unit
  pdf_open_crypt_error : pdf_crypt → Int → Int → Option fz_error
  fz_read_all : fz_stream → Int → pdf_xref → fz_outcome fz_buffer

/-- Append an event to the trace. -/
def emit (ev : fz_event) (xref : pdf_xref) : pdf_xref :=
  { xref with trace := xref.trace ++ [ev] }

/-- The entry `xref->table[num]`. -/
def table_entry (xref : pdf_xref) (num : Int) : pdf_xref_entry :=
  xref.table.getD num.toNat {}

/-! ## External constructors and effects

Each `fz_open_*` returns the stage it builds and records it in the trace. -/

/-- Modelled from the spec: the codec constructors are declared in fitz.h and
are infallible at construction time.  `opened s` is the return of the
constructor that built stage `s`. -/
def opened (s : fz_stream) (xref : pdf_xref) : fz_stream × pdf_xref :=
  (s, emit (.opened s) xref)

/-- Modelled from the spec: `fz_open_null`, the pass-through stage that lets at
most `len` bytes through. -/
def fz_open_null (chain : fz_stream) (len : Int) (xref : pdf_xref) : fz_stream × pdf_xref :=
  opened (.null chain len) xref

/-- Modelled from the spec: `fz_open_ahxd`, hex decoding. -/
def fz_open_ahxd (chain : fz_stream) (xref : pdf_xref) : fz_stream × pdf_xref :=
  opened (.ahxd chain) xref

/-- Modelled from the spec: `fz_open_a85d`, base-85 decoding. -/
def fz_open_a85d (chain : fz_stream) (xref : pdf_xref) : fz_stream × pdf_xref :=
  opened (.a85d chain) xref

/-- Modelled from the spec: `fz_open_faxd`, fax decoding with its parameters. -/
def fz_open_faxd (chain : fz_stream) (p : Option fz_obj) (xref : pdf_xref) :
    fz_stream × pdf_xref :=
  opened (.faxd chain p) xref

/-- Modelled from the spec: `fz_open_dctd`, JPEG decoding with its parameters. -/
def fz_open_dctd (chain : fz_stream) (p : Option fz_obj) (xref : pdf_xref) :
    fz_stream × pdf_xref :=
  opened (.dctd chain p) xref

/-- Modelled from the spec: `fz_open_rld`, run-length decoding. -/
def fz_open_rld (chain : fz_stream) (xref : pdf_xref) : fz_stream × pdf_xref :=
  opened (.rld chain) xref

/-- Modelled from the spec: `fz_open_flated`, deflate decoding. -/
def fz_open_flated (chain : fz_stream) (xref : pdf_xref) : fz_stream × pdf_xref :=
  opened (.flated chain) xref

/-- Modelled from the spec: `fz_open_lzwd`, LZW decoding with its parameters. -/
def fz_open_lzwd (chain : fz_stream) (p : Option fz_obj) (xref : pdf_xref) :
    fz_stream × pdf_xref :=
  opened (.lzwd chain p) xref

/-- Modelled from the spec: `fz_open_predict`, the predictor-reversal stage. -/
def fz_open_predict (chain : fz_stream) (p : Option fz_obj) (xref : pdf_xref) :
    fz_stream × pdf_xref :=
  opened (.predict chain p) xref

/-- Modelled from the spec: `fz_open_jbig2d`, which takes possession of the
globals buffer. -/
def fz_open_jbig2d (chain : fz_stream) (globals : Option fz_buffer) (xref : pdf_xref) :
    fz_stream × pdf_xref :=
  opened (.jbig2d chain globals) xref

/-- Modelled from the spec: `pdf_open_crypt` of the cipher subsystem, the
document-wide decrypt stage keyed by the object id.  It throws when the
environment says so for this object. -/
def pdf_open_crypt (env : fz_env) (chain : fz_stream) (crypt : pdf_crypt) (num gen : Int)
    (xref : pdf_xref) : fz_outcome fz_stream :=
  match env.pdf_open_crypt_error crypt num gen with
  | some e => .throw e xref
  | none => .ok (.crypt chain crypt num gen) (emit (.opened (.crypt chain crypt num gen)) xref)

/-- Modelled from the spec: `pdf_open_crypt_with_filter` of the cipher
subsystem.  When the key alias `name` resolves, the decrypt stage ctx to
that alias and the object id; when it does not resolve, the input chain,
unchanged and with no stage constructed. -/
def pdf_open_crypt_with_filter (chain : fz_stream) (crypt : pdf_crypt) (name : String)
    (num gen : Int) (xref : pdf_xref) : fz_stream × pdf_xref :=
  match resolve_key_alias crypt name with
  | some ctx => opened (.crypt_with_filter chain ctx name num gen) xref
  | none => (chain, xref)

/-- Modelled from the spec: `fz_keep_stream` takes one more reference to a
stream, so that closing a stage above it does not close it. -/
def fz_keep_stream (chain : fz_stream) (xref : pdf_xref) : pdf_xref :=
  emit (.keep chain) xref

/-- Modelled from the spec: `fz_close` releases a chain. -/
def fz_close (chain : fz_stream) (xref : pdf_xref) : pdf_xref :=
  emit (.closed chain) xref

/-- Modelled from the spec: `fz_warn` reports to the diagnostic sink. -/
def fz_warn (msg : String) (xref : pdf_xref) : pdf_xref :=
  emit (.warn msg) xref

/-- Modelled from the spec: `fz_seek(xref->file, ofs, 0)` sets the position of
the underlying file. -/
def fz_seek (ofs : Int) (xref : pdf_xref) : pdf_xref :=
  emit (.seek ofs) { xref with file_pos := ofs }

/-- Modelled from the spec: `pdf_load_object` of the object store caches the
object and returns the table's object. -/
def pdf_load_object (env : fz_env) (xref : pdf_xref) (num gen : Int) :
    fz_outcome (Option fz_obj) :=
  match env.pdf_cache_object xref num gen with
  | .ok _ x1 => .ok (table_entry x1 num).obj x1
  | .throw e x1 => .throw e x1
  | .diverge => .diverge

/-! ## The functions of `pdf_stream.c` -/

/-- The function `pdf_is_stream`. -/
def pdf_is_stream (env : fz_env) (xref : pdf_xref) (num gen : Int) : fz_outcome Bool :=
  if num < 0 ∨ num ≥ xref.len then .ok false xref
  else
    match env.pdf_cache_object xref num gen with
    | .ok _ x1 => .ok (decide ((table_entry x1 num).stm_ofs > 0)) x1
    | .throw e x1 => .throw e x1
    | .diverge => .diverge

/-- The function `pdf_stream_has_crypt`: the loop over the positions of the
sequence stops at the first element named Crypt. -/
def pdf_stream_has_crypt (stm : Option fz_obj) : Bool :=
  match fz_dict_getsa stm "Filter" "F" with
  | none => false
  | some filters =>
    if fz_to_name (some filters) = "Crypt" then true
    else if fz_is_array (some filters) then
      (List.range (fz_array_len (some filters))).any
        (fun i => decide (fz_to_name (fz_array_get (some filters) i) = "Crypt"))
    else false

/-- The function `build_filter`.  `load` is `pdf_load_stream`, which the
JBIG2Decode branch calls for the globals object. -/
def build_filter (load : pdf_xref → Int → Int → fz_outcome fz_buffer)
    (chain : fz_stream) (xref : pdf_xref) (f p : Option fz_obj) (num gen : Int) :
    fz_outcome fz_stream :=
  let s := fz_to_name f
  if s = "ASCIIHexDecode" ∨ s = "AHx" then
    let r := fz_open_ahxd chain xref
    .ok r.1 r.2
  else if s = "ASCII85Decode" ∨ s = "A85" then
    let r := fz_open_a85d chain xref
    .ok r.1 r.2
  else if s = "CCITTFaxDecode" ∨ s = "CCF" then
    let r := fz_open_faxd chain p xref
    .ok r.1 r.2
  else if s = "DCTDecode" ∨ s = "DCT" then
    let r := fz_open_dctd chain p xref
    .ok r.1 r.2
  else if s = "RunLengthDecode" ∨ s = "RL" then
    let r := fz_open_rld chain xref
    .ok r.1 r.2
  else if s = "FlateDecode" ∨ s = "Fl" then
    let obj := fz_dict_gets p "Predictor"
    if fz_to_int obj > 1 then
      let r1 := fz_open_flated chain xref
      let r2 := fz_open_predict r1.1 p r1.2
      .ok r2.1 r2.2
    else
      let r := fz_open_flated chain xref
      .ok r.1 r.2
  else if s = "LZWDecode" ∨ s = "LZW" then
    let obj := fz_dict_gets p "Predictor"
    if fz_to_int obj > 1 then
      let r1 := fz_open_lzwd chain p xref
      let r2 := fz_open_predict r1.1 p r1.2
      .ok r2.1 r2.2
    else
      let r := fz_open_lzwd chain p xref
      .ok r.1 r.2
  else if s = "JBIG2Decode" then
    let obj := fz_dict_gets p "JBIG2Globals"
    match obj with
    | some _ =>
      match load xref (fz_to_num obj) (fz_to_gen obj) with
      | .ok globals x1 =>
        let r := fz_open_jbig2d chain (some globals) x1
        .ok r.1 r.2
      | .throw e x1 => .throw e x1
      | .diverge => .diverge
    | none =>
      let r := fz_open_jbig2d chain none xref
      .ok r.1 r.2
  else if s = "JPXDecode" then
    .ok chain xref
  else if s = "Crypt" then
    match xref.crypt with
    | none => .ok chain (fz_warn "crypt filter in unencrypted document" xref)
    | some crypt =>
      let name := fz_dict_gets p "Name"
      if fz_is_name name then
        let r := pdf_open_crypt_with_filter chain crypt (fz_to_name name) num gen xref
        .ok r.1 r.2
      else .ok chain xref
  else
    .ok chain (fz_warn ("unknown filter name (" ++ s ++ ")") xref)

/-- The loop of `build_filter_chain` over the positions `i` still to do. -/
def build_filter_chain_loop (load : pdf_xref → Int → Int → fz_outcome fz_buffer)
    (fs ps : Option fz_obj) (num gen : Int) :
    List Nat → fz_stream → pdf_xref → fz_outcome fz_stream
  | [], chain, xref => .ok chain xref
  | i :: rest, chain, xref =>
    match build_filter load chain xref (fz_array_get fs i) (fz_array_get ps i) num gen with
    | .ok chain1 x1 => build_filter_chain_loop load fs ps num gen rest chain1 x1
    | .throw e x1 => .throw e x1
    | .diverge => .diverge

/-- The function `build_filter_chain`: `for (i = 0; i < n; i++)`. -/
def build_filter_chain (load : pdf_xref → Int → Int → fz_outcome fz_buffer)
    (chain : fz_stream) (xref : pdf_xref) (fs ps : Option fz_obj) (num gen : Int) :
    fz_outcome fz_stream :=
  build_filter_chain_loop load fs ps num gen (List.range (fz_array_len fs)) chain xref

/-- The function `pdf_open_raw_filter`: the handler of the `fz_try` closes the
chain built so far and rethrows. -/
def pdf_open_raw_filter (env : fz_env) (chain : fz_stream) (xref : pdf_xref)
    (stmobj : Option fz_obj) (num gen : Int) : fz_outcome fz_stream :=
  let x0 := fz_keep_stream chain xref
  let len := fz_to_int (fz_dict_gets stmobj "Length")
  let r := fz_open_null chain len x0
  let hascrypt := pdf_stream_has_crypt stmobj
  match r.2.crypt with
  | some crypt =>
    if !hascrypt then
      match pdf_open_crypt env r.1 crypt num gen r.2 with
      | .ok chain2 x2 => .ok chain2 x2
      | .throw e x2 => .throw e (fz_close r.1 x2)
      | .diverge => .diverge
    else .ok r.1 r.2
  | none => .ok r.1 r.2

/-- The function `pdf_open_filter`. -/
def pdf_open_filter (env : fz_env) (load : pdf_xref → Int → Int → fz_outcome fz_buffer)
    (chain : fz_stream) (xref : pdf_xref) (stmobj : Option fz_obj) (num gen : Int) :
    fz_outcome fz_stream :=
  let filters := fz_dict_getsa stmobj "Filter" "F"
  let params := fz_dict_getsa stmobj "DecodeParms" "DP"
  match pdf_open_raw_filter env chain xref stmobj num gen with
  | .ok chain1 x1 =>
    if fz_is_name filters then
      build_filter load chain1 x1 filters params num gen
    else if fz_array_len filters > 0 then
      build_filter_chain load chain1 x1 filters params num gen
    else .ok chain1 x1
  | .throw e x1 => .throw e x1
  | .diverge => .diverge

/-- The function `pdf_open_inline_stream`. -/
def pdf_open_inline_stream (load : pdf_xref → Int → Int → fz_outcome fz_buffer)
    (chain : fz_stream) (xref : pdf_xref) (stmobj : Option fz_obj) (length : Int) :
    fz_outcome fz_stream :=
  let filters := fz_dict_getsa stmobj "Filter" "F"
  let params := fz_dict_getsa stmobj "DecodeParms" "DP"
  let x0 := fz_keep_stream chain xref
  if fz_is_name filters then
    build_filter load chain x0 filters params 0 0
  else if fz_array_len filters > 0 then
    build_filter_chain load chain x0 filters params 0 0
  else
    let r := fz_open_null chain length x0
    .ok r.1 r.2

/-- The function `pdf_open_raw_stream`. -/
def pdf_open_raw_stream (env : fz_env) (xref : pdf_xref) (num gen : Int) :
    fz_outcome fz_stream :=
  if num < 0 ∨ num ≥ xref.len then .throw (.object_out_of_range num gen) xref
  else
    match env.pdf_cache_object xref num gen with
    | .ok _ x1 =>
      if (table_entry x1 num).stm_ofs = 0 then .throw .not_a_stream x1
      else
        match pdf_open_raw_filter env x1.file x1 (table_entry x1 num).obj num gen with
        | .ok stm x2 => .ok stm (fz_seek (table_entry x2 num).stm_ofs x2)
        | .throw e x2 => .throw e x2
        | .diverge => .diverge
    | .throw e x1 => .throw e x1
    | .diverge => .diverge

/-- The function `pdf_open_stream`. -/
def pdf_open_stream (env : fz_env) (load : pdf_xref → Int → Int → fz_outcome fz_buffer)
    (xref : pdf_xref) (num gen : Int) : fz_outcome fz_stream :=
  if num < 0 ∨ num ≥ xref.len then .throw (.object_out_of_range num gen) xref
  else
    match env.pdf_cache_object xref num gen with
    | .ok _ x1 =>
      if (table_entry x1 num).stm_ofs = 0 then .throw .not_a_stream x1
      else
        match pdf_open_filter env load x1.file x1 (table_entry x1 num).obj num gen with
        | .ok stm x2 => .ok stm (fz_seek (table_entry x2 num).stm_ofs x2)
        | .throw e x2 => .throw e x2
        | .diverge => .diverge
    | .throw e x1 => .throw e x1
    | .diverge => .diverge

/-- The function `pdf_open_stream_at`. -/
def pdf_open_stream_at (env : fz_env) (load : pdf_xref → Int → Int → fz_outcome fz_buffer)
    (xref : pdf_xref) (num gen : Int) (dict : Option fz_obj) (stm_ofs : Int) :
    fz_outcome fz_stream :=
  if stm_ofs = 0 then .throw .not_a_stream xref
  else
    match pdf_open_filter env load xref.file xref dict num gen with
    | .ok stm x1 => .ok stm (fz_seek stm_ofs x1)
    | .throw e x1 => .throw e x1
    | .diverge => .diverge

/-- The function `pdf_load_raw_stream`. -/
def pdf_load_raw_stream (env : fz_env) (xref : pdf_xref) (num gen : Int) :
    fz_outcome fz_buffer :=
  match pdf_load_object env xref num gen with
  | .ok dict x1 =>
    let len := fz_to_int (fz_dict_gets dict "Length")
    match pdf_open_raw_stream env x1 num gen with
    | .ok stm x2 =>
      match env.fz_read_all stm len x2 with
      | .ok buf x3 => .ok buf (fz_close stm x3)
      | .throw e x3 => .throw e x3
      | .diverge => .diverge
    | .throw e x2 => .throw e x2
    | .diverge => .diverge
  | .throw e x1 => .throw e x1
  | .diverge => .diverge

/-- A C `int`: the value of `x` in 32-bit two's complement. -/
def wrap32 (x : Int) : Int :=
  (x + 2 ^ 31) % 2 ^ 32 - 2 ^ 31

/-- The function `pdf_guess_filter_length`; `/` of C truncates towards zero. -/
def pdf_guess_filter_length (len : Int) (filter : String) : Int :=
  if filter = "ASCIIHexDecode" then Int.tdiv len 2
  else if filter = "ASCII85Decode" then Int.tdiv (wrap32 (len * 4)) 5
  else if filter = "FlateDecode" then wrap32 (len * 3)
  else if filter = "RunLengthDecode" then wrap32 (len * 3)
  else if filter = "LZWDecode" then wrap32 (len * 2)
  else len

/-- The loop of `pdf_load_stream` over the positions of the Filter sequence. -/
def pdf_load_stream_loop (obj : Option fz_obj) : List Nat → Int → Int
  | [], len => len
  | i :: rest, len =>
    pdf_load_stream_loop obj rest (pdf_guess_filter_length len (fz_to_name (fz_array_get obj i)))

/-- The size estimate of `pdf_load_stream` (lines 359 to 364): the value of
`len` handed to `fz_read_all`, computed from the stream dictionary. -/
def pdf_load_stream_estimate (dict : Option fz_obj) : Int :=
  let len := fz_to_int (fz_dict_gets dict "Length")
  let obj := fz_dict_gets dict "Filter"
  let len1 := pdf_guess_filter_length len (fz_to_name obj)
  let n := fz_array_len obj
  pdf_load_stream_loop obj (List.range n) len1

/-- The function `pdf_load_stream`.  It is recursive through `build_filter`
(a JBIG2Decode stage loads its globals stream), without a bound in the code;
`fuel` bounds the depth of that recursion. -/
def pdf_load_stream (env : fz_env) : Nat → pdf_xref → Int → Int → fz_outcome fz_buffer
  | 0, _, _, _ => .diverge
  | fuel + 1, xref, num, gen =>
    match pdf_open_stream env (pdf_load_stream env fuel) xref num gen with
    | .ok stm x1 =>
      match pdf_load_object env x1 num gen with
      | .ok dict x2 =>
        let len := pdf_load_stream_estimate dict
        match env.fz_read_all stm len x2 with
        | .ok buf x3 => .ok buf (fz_close stm x3)
        | .throw _ x3 => .throw (.cannot_read_raw_stream num gen) (fz_close stm x3)
        | .diverge => .diverge
      | .throw e x2 => .throw e x2
      | .diverge => .diverge
    | .throw e x1 => .throw e x1
    | .diverge => .diverge

/-! ## Definitions used to state the properties -/

/-- Pipe the value and state an outcome returns into the next step; a throw or
a divergence is passed on. -/
def fz_outcome.bind {α β : Type} (r : fz_outcome α) (k : α → pdf_xref → fz_outcome β) :
    fz_outcome β :=
  match r with
  | .ok a x => k a x
  | .throw e x => .throw e x
  | .diverge => .diverge

/-- The stages for the filter names `fs`, composed in declared order on top of
`chain`: the first name builds the stage that wraps `chain`, each later name
the stage that wraps the one before.  The name at position `i` (counted from
`i0`) is built with `params i`. -/
def stages_in_declared_order (load : pdf_xref → Int → Int → fz_outcome fz_buffer)
    (params : Nat → Option fz_obj) (num gen : Int) :
    List fz_obj → Nat → fz_stream → pdf_xref → fz_outcome fz_stream
  | [], _, chain, xref => .ok chain xref
  | f :: rest, i0, chain, xref =>
    (build_filter load chain xref (some f) (params i0) num gen).bind
      (stages_in_declared_order load params num gen rest (i0 + 1))

/-- An environment in which caching leaves the table as it is, the cipher
never throws and every read returns an empty buffer. -/
def env_quiet : fz_env where
  pdf_cache_object := fun xref _ _ => .ok () xref
  pdf_open_crypt_error := fun _ _ _ => none
  fz_read_all := fun _ _ xref => .ok { data := [] } xref

/-- A stream dictionary with the given entries. -/
def stream_dict (entries : List (String × fz_obj)) : Option fz_obj :=
  some (.dict entries)

/-- An unencrypted document with an empty object table. -/
def xref_empty : pdf_xref where
  len := 0
  table := []

/-- The filter entry names the override-cipher filter: it is the name Crypt,
or a sequence with the name Crypt at some position. -/
def names_crypt (entry : Option fz_obj) : Prop :=
  entry = some (.name "Crypt") ∨ ∃ items, entry = some (.array items) ∧ fz_obj.name "Crypt" ∈ items

/-- An encrypted document with an empty object table. -/
def xref_encrypted : pdf_xref where
  len := 0
  table := []
  crypt := some { key := [1] }

/-- The number of stages of a chain, from the outermost down to the file, that
satisfy `is_kind`. -/
def count_stages (is_kind : fz_stream → Bool) : fz_stream → Nat
  | .file fd => if is_kind (.file fd) then 1 else 0
  | .null c len => count_stages is_kind c + if is_kind (.null c len) then 1 else 0
  | .crypt c cr n g => count_stages is_kind c + if is_kind (.crypt c cr n g) then 1 else 0
  | .crypt_with_filter c cr s n g =>
    count_stages is_kind c + if is_kind (.crypt_with_filter c cr s n g) then 1 else 0
  | .ahxd c => count_stages is_kind c + if is_kind (.ahxd c) then 1 else 0
  | .a85d c => count_stages is_kind c + if is_kind (.a85d c) then 1 else 0
  | .faxd c p => count_stages is_kind c + if is_kind (.faxd c p) then 1 else 0
  | .dctd c p => count_stages is_kind c + if is_kind (.dctd c p) then 1 else 0
  | .rld c => count_stages is_kind c + if is_kind (.rld c) then 1 else 0
  | .flated c => count_stages is_kind c + if is_kind (.flated c) then 1 else 0
  | .lzwd c p => count_stages is_kind c + if is_kind (.lzwd c p) then 1 else 0
  | .predict c p => count_stages is_kind c + if is_kind (.predict c p) then 1 else 0
  | .jbig2d c g => count_stages is_kind c + if is_kind (.jbig2d c g) then 1 else 0

/-- The outermost stage is a document-wide decrypt stage (`pdf_open_crypt`). -/
def is_crypt : fz_stream → Bool
  | .crypt _ _ _ _ => true
  | _ => false

/-- The outermost stage is a length-constraining pass-through (`fz_open_null`). -/
def is_null : fz_stream → Bool
  | .null _ _ => true
  | _ => false

/-- The outermost stage is a predictor-reversal stage (`fz_open_predict`). -/
def is_predict : fz_stream → Bool
  | .predict _ _ => true
  | _ => false

/-- A stream dictionary of 10 bytes with the single filter `Fl`. -/
def dict_flate : Option fz_obj :=
  stream_dict [("Length", .int 10), ("Filter", .name "Fl")]

/-- The filter names of a Filter entry in document order: the single name, or
the name of each element of a sequence; none for any other entry. -/
def filter_names : Option fz_obj → List String
  | some (.name s) => [s]
  | some (.array items) => items.map (fun o => fz_to_name (some o))
  | _ => []

/-- A stream dictionary with declared length `len` and Filter entry `filter`. -/
def dict_with_filter (len : Int) (filter : fz_obj) : Option fz_obj :=
  stream_dict [("Length", .int len), ("Filter", filter)]

/-- The parameter for the stage at position `i`: the element at position `i`
of the params value when that value is a sequence with a position `i`, and
the absent (empty) parameter map otherwise. -/
def params_at (ps : Option fz_obj) (i : Nat) : Option fz_obj :=
  match ps with
  | some (.array items) => if h : i < items.length then some (items.get ⟨i, h⟩) else none
  | _ => none

/-- An unencrypted document of two objects: object 0 is not a stream, object 1
is a Flate stream of 10 bytes whose payload starts at offset 100. -/
def xref_two : pdf_xref where
  len := 2
  table := [{ obj := some (.int 3), stm_ofs := 0 }, { obj := dict_flate, stm_ofs := 100 }]

/-- The chain a stage wraps: what is directly under the outermost stage; a
`file` wraps nothing. -/
def fz_stream.inner : fz_stream → Option fz_stream
  | .file _ => none
  | .null c _ => some c
  | .crypt c _ _ _ => some c
  | .crypt_with_filter c _ _ _ _ => some c
  | .ahxd c => some c
  | .a85d c => some c
  | .faxd c _ => some c
  | .dctd c _ => some c
  | .rld c => some c
  | .flated c => some c
  | .lzwd c _ => some c
  | .predict c _ => some c
  | .jbig2d c _ => some c

/-- The result `s` of a stage builder is the input `chain` itself, or one new
stage wrapping it, or two new stages (a predictor over a decompressor)
wrapping it. -/
def is_input_or_wraps (chain s : fz_stream) : Prop :=
  s = chain ∨ s.inner = some chain ∨ s.inner.bind fz_stream.inner = some chain

/-- A stream dictionary of 10 bytes with the filter JBIG2Decode, whose
parameters name object `g` 0 as the JBIG2 globals. -/
def dict_jbig2 (g : Int) : Option fz_obj :=
  stream_dict [("Length", .int 10), ("Filter", .name "JBIG2Decode"),
    ("DecodeParms", .dict [("JBIG2Globals", .indirect g 0)])]

/-- An unencrypted document of two objects: object 0 is not a stream, object 1
is a JBIG2 stream at offset 100 whose globals are object `g`. -/
def xref_jbig2 (g : Int) : pdf_xref where
  len := 2
  table := [{ obj := some (.int 3), stm_ofs := 0 }, { obj := dict_jbig2 g, stm_ofs := 100 }]

/-- Modelled from the spec: what `fz_read_all` returns for the
length-constrained pass-through stage over the file (`fz_open_null` and
`fz_read_all` are declared in fitz.h): the bytes of the file from its position
on, at most `len` of them, fewer when the file ends before. -/
def read_null_stage (xref : pdf_xref) (len : Int) : fz_buffer :=
  { data := (xref.file_data.drop xref.file_pos.toNat).take len.toNat }

/-- The environment reads the length-constrained pass-through stage over the
file as `read_null_stage` says. -/
def reads_null_stage (env : fz_env) : Prop :=
  ∀ fd len cap x, x.file = .file fd →
    ∃ x1, env.fz_read_all (.null (.file fd) len) cap x = .ok (read_null_stage x len) x1

/-- An environment in which caching leaves the table as it is, the cipher
never throws, and reading the length-constrained stage over the file returns
the bytes of the file and advances its position. -/
def env_file : fz_env where
  pdf_cache_object := fun xref _ _ => .ok () xref
  pdf_open_crypt_error := fun _ _ _ => none
  fz_read_all := fun stm _ xref =>
    match stm with
    | .null (.file _) len =>
      .ok (read_null_stage xref len)
        { xref with file_pos := xref.file_pos + (read_null_stage xref len).data.length }
    | _ => .ok { data := [] } xref

/-- An unencrypted document over a file of 200 bytes (byte `i` has value `i`):
object 1 is an unfiltered stream with Length 50 at offset 100, object 2 an
unfiltered stream with Length 50 at offset 180, 20 bytes before the end. -/
def xref_bytes : pdf_xref where
  len := 3
  table := [{ obj := some (.int 3), stm_ofs := 0 },
    { obj := stream_dict [("Length", .int 50)], stm_ofs := 100 },
    { obj := stream_dict [("Length", .int 50)], stm_ofs := 180 }]
  file_data := List.range 200

/-- A stream dictionary with declared length `len` whose filter is stored
under the alias key F. -/
def dict_with_alias_filter (len : Int) (filter : fz_obj) : Option fz_obj :=
  stream_dict [("Length", .int len), ("F", filter)]

/-- The event is the closing of a chain. -/
def is_closed_event : fz_event → Bool
  | .closed _ => true
  | _ => false

/-- The event is the construction of a stage. -/
def is_opened_event : fz_event → Bool
  | .opened _ => true
  | _ => false

/-- An environment like `env_quiet` in which the cipher subsystem throws
whenever it is asked for a decrypt stage. -/
def env_crypt_fails : fz_env where
  pdf_cache_object := fun xref _ _ => .ok () xref
  pdf_open_crypt_error := fun _ _ _ => some (.other "cannot open crypt")
  fz_read_all := fun _ _ xref => .ok { data := [] } xref

/-- An encrypted document of two objects: object 0 is not a stream, object 1
is a Flate stream of 10 bytes at offset 100. -/
def xref_two_encrypted : pdf_xref where
  len := 2
  table := [{ obj := some (.int 3), stm_ofs := 0 }, { obj := dict_flate, stm_ofs := 100 }]
  crypt := some { key := [1] }

/-- The chain `s` is `base` with zero or more stages wrapped around it. -/
inductive built_on (base : fz_stream) : fz_stream → Prop where
  | base : built_on base base
  | stage (s c : fz_stream) : s.inner = some c → built_on base c → built_on base s

/-- The document `xref_jbig2 1` after object 1 was opened: the
length-constrained stage and the JBIG2 stage were constructed and the file was
sought to offset 100. -/
def xref_jbig2_opened : pdf_xref :=
  { xref_jbig2 1 with
    file_pos := 100
    trace := [.keep (.file 0), .opened (.null (.file 0) 10),
      .opened (.jbig2d (.null (.file 0) 10) (some { data := [] })), .seek 100] }

/-- The filter names `build_filter` compares with, in the order of its
cascade; any other name is unknown to it. -/
def recognised_filter_names : List String :=
  ["ASCIIHexDecode", "AHx", "ASCII85Decode", "A85", "CCITTFaxDecode", "CCF", "DCTDecode", "DCT",
    "RunLengthDecode", "RL", "FlateDecode", "Fl", "LZWDecode", "LZW", "JBIG2Decode", "JPXDecode",
    "Crypt"]

/-- An encrypted document with an empty object table whose cipher context
resolves the key alias `StdCF`. -/
def xref_encrypted_cf : pdf_xref where
  len := 0
  table := []
  crypt := some { key := [1], aliases := [("StdCF", [2])] }

/-! ## Theorems -/

/-- Case analysis on `build_filter`, one case per branch of the cascade of
string comparisons: to prove `P name outcome` for the name of the filter and
the outcome of the call, prove it on each branch. -/
theorem build_filter_cases (load : pdf_xref → Int → Int → fz_outcome fz_buffer)
    (chain : fz_stream) (xref : pdf_xref) (f p : Option fz_obj) (num gen : Int)
    (P : String → fz_outcome fz_stream → Prop)
    (hahx : ∀ n, n = "ASCIIHexDecode" ∨ n = "AHx" →
      P n (.ok (.ahxd chain) (emit (.opened (.ahxd chain)) xref)))
    (ha85 : ∀ n, n = "ASCII85Decode" ∨ n = "A85" →
      P n (.ok (.a85d chain) (emit (.opened (.a85d chain)) xref)))
    (hfax : ∀ n, n = "CCITTFaxDecode" ∨ n = "CCF" →
      P n (.ok (.faxd chain p) (emit (.opened (.faxd chain p)) xref)))
    (hdct : ∀ n, n = "DCTDecode" ∨ n = "DCT" →
      P n (.ok (.dctd chain p) (emit (.opened (.dctd chain p)) xref)))
    (hrl : ∀ n, n = "RunLengthDecode" ∨ n = "RL" →
      P n (.ok (.rld chain) (emit (.opened (.rld chain)) xref)))
    (hflp : ∀ n, n = "FlateDecode" ∨ n = "Fl" → fz_to_int (fz_dict_gets p "Predictor") > 1 →
      P n (.ok (.predict (.flated chain) p)
        (emit (.opened (.predict (.flated chain) p)) (emit (.opened (.flated chain)) xref))))
    (hfl : ∀ n, n = "FlateDecode" ∨ n = "Fl" → ¬ fz_to_int (fz_dict_gets p "Predictor") > 1 →
      P n (.ok (.flated chain) (emit (.opened (.flated chain)) xref)))
    (hlzwp : ∀ n, n = "LZWDecode" ∨ n = "LZW" → fz_to_int (fz_dict_gets p "Predictor") > 1 →
      P n (.ok (.predict (.lzwd chain p) p)
        (emit (.opened (.predict (.lzwd chain p) p)) (emit (.opened (.lzwd chain p)) xref))))
    (hlzw : ∀ n, n = "LZWDecode" ∨ n = "LZW" → ¬ fz_to_int (fz_dict_gets p "Predictor") > 1 →
      P n (.ok (.lzwd chain p) (emit (.opened (.lzwd chain p)) xref)))
    (hjbg : ∀ n, n = "JBIG2Decode" → ∀ o, fz_dict_gets p "JBIG2Globals" = some o →
      ∀ g x1, load xref (fz_to_num (some o)) (fz_to_gen (some o)) = .ok g x1 →
      P n (.ok (.jbig2d chain (some g)) (emit (.opened (.jbig2d chain (some g))) x1)))
    (hjbt : ∀ n, n = "JBIG2Decode" → ∀ o, fz_dict_gets p "JBIG2Globals" = some o →
      ∀ e x1, load xref (fz_to_num (some o)) (fz_to_gen (some o)) = .throw e x1 →
      P n (.throw e x1))
    (hjbd : ∀ n, n = "JBIG2Decode" → ∀ o, fz_dict_gets p "JBIG2Globals" = some o →
      load xref (fz_to_num (some o)) (fz_to_gen (some o)) = .diverge →
      P n .diverge)
    (hjb : ∀ n, n = "JBIG2Decode" → fz_dict_gets p "JBIG2Globals" = none →
      P n (.ok (.jbig2d chain none) (emit (.opened (.jbig2d chain none)) xref)))
    (hjpx : ∀ n, n = "JPXDecode" → P n (.ok chain xref))
    (hcr0 : ∀ n, n = "Crypt" → xref.crypt = none →
      P n (.ok chain (emit (.warn "crypt filter in unencrypted document") xref)))
    (hcrn : ∀ n, n = "Crypt" → ∀ cr, xref.crypt = some cr →
      fz_is_name (fz_dict_gets p "Name") = true →
      ∀ ctx, resolve_key_alias cr (fz_to_name (fz_dict_gets p "Name")) = some ctx →
      P n (.ok (.crypt_with_filter chain ctx (fz_to_name (fz_dict_gets p "Name")) num gen)
        (emit
          (.opened (.crypt_with_filter chain ctx (fz_to_name (fz_dict_gets p "Name")) num gen))
          xref)))
    (hcru : ∀ n, n = "Crypt" → ∀ cr, xref.crypt = some cr →
      fz_is_name (fz_dict_gets p "Name") = true →
      resolve_key_alias cr (fz_to_name (fz_dict_gets p "Name")) = none → P n (.ok chain xref))
    (hcr : ∀ n, n = "Crypt" → ∀ cr, xref.crypt = some cr →
      fz_is_name (fz_dict_gets p "Name") = false → P n (.ok chain xref))
    (hunk : ∀ n, ¬ (n = "ASCIIHexDecode" ∨ n = "AHx") → ¬ (n = "ASCII85Decode" ∨ n = "A85") →
      ¬ (n = "CCITTFaxDecode" ∨ n = "CCF") → ¬ (n = "DCTDecode" ∨ n = "DCT") →
      ¬ (n = "RunLengthDecode" ∨ n = "RL") → ¬ (n = "FlateDecode" ∨ n = "Fl") →
      ¬ (n = "LZWDecode" ∨ n = "LZW") → n ≠ "JBIG2Decode" → n ≠ "JPXDecode" → n ≠ "Crypt" →
      P n (.ok chain (emit (.warn ("unknown filter name (" ++ n ++ ")")) xref))) :
    P (fz_to_name f) (build_filter load chain xref f p num gen) := by
  unfold build_filter
  simp only [fz_open_ahxd, fz_open_a85d, fz_open_faxd, fz_open_dctd, fz_open_rld, fz_open_flated,
    fz_open_lzwd, fz_open_predict, fz_open_jbig2d, pdf_open_crypt_with_filter, opened, fz_warn]
  generalize fz_to_name f = n
  by_cases h1 : n = "ASCIIHexDecode" ∨ n = "AHx"
  · rw [if_pos h1]; exact hahx n h1
  rw [if_neg h1]
  by_cases h2 : n = "ASCII85Decode" ∨ n = "A85"
  · rw [if_pos h2]; exact ha85 n h2
  rw [if_neg h2]
  by_cases h3 : n = "CCITTFaxDecode" ∨ n = "CCF"
  · rw [if_pos h3]; exact hfax n h3
  rw [if_neg h3]
  by_cases h4 : n = "DCTDecode" ∨ n = "DCT"
  · rw [if_pos h4]; exact hdct n h4
  rw [if_neg h4]
  by_cases h5 : n = "RunLengthDecode" ∨ n = "RL"
  · rw [if_pos h5]; exact hrl n h5
  rw [if_neg h5]
  by_cases h6 : n = "FlateDecode" ∨ n = "Fl"
  · rw [if_pos h6]
    by_cases hp : fz_to_int (fz_dict_gets p "Predictor") > 1
    · rw [if_pos hp]; exact hflp n h6 hp
    · rw [if_neg hp]; exact hfl n h6 hp
  rw [if_neg h6]
  by_cases h7 : n = "LZWDecode" ∨ n = "LZW"
  · rw [if_pos h7]
    by_cases hp : fz_to_int (fz_dict_gets p "Predictor") > 1
    · rw [if_pos hp]; exact hlzwp n h7 hp
    · rw [if_neg hp]; exact hlzw n h7 hp
  rw [if_neg h7]
  by_cases h8 : n = "JBIG2Decode"
  · rw [if_pos h8]
    cases ho : fz_dict_gets p "JBIG2Globals" with
    | none => exact hjb n h8 ho
    | some o =>
      simp only
      cases hl : load xref (fz_to_num (some o)) (fz_to_gen (some o)) with
      | ok g x1 => exact hjbg n h8 o ho g x1 hl
      | throw e x1 => exact hjbt n h8 o ho e x1 hl
      | diverge => exact hjbd n h8 o ho hl
  rw [if_neg h8]
  by_cases h9 : n = "JPXDecode"
  · rw [if_pos h9]; exact hjpx n h9
  rw [if_neg h9]
  by_cases h10 : n = "Crypt"
  · rw [if_pos h10]
    cases hc : xref.crypt with
    | none => exact hcr0 n h10 hc
    | some cr =>
      simp only
      cases hn : fz_is_name (fz_dict_gets p "Name") with
      | true =>
        simp only [if_true]
        cases hres : resolve_key_alias cr (fz_to_name (fz_dict_gets p "Name")) with
        | some ctx => exact hcrn n h10 cr hc hn ctx hres
        | none => exact hcru n h10 cr hc hn hres
      | false => simp only [Bool.false_eq_true, if_false]; exact hcr n h10 cr hc hn
  rw [if_neg h10]
  exact hunk n h1 h2 h3 h4 h5 h6 h7 h8 h9 h10

theorem build_filter_chain_loop_range (load : pdf_xref → Int → Int → fz_outcome fz_buffer)
    (ps : Option fz_obj) (num gen : Int) (rest : List fz_obj) :
    ∀ (pre : List fz_obj) (chain : fz_stream) (xref : pdf_xref),
      build_filter_chain_loop load (some (.array (pre ++ rest))) ps num gen
          (List.range' pre.length rest.length) chain xref
        = stages_in_declared_order load (fz_array_get ps) num gen rest pre.length chain xref := by
  induction rest with
  | nil => intro pre chain xref; simp [build_filter_chain_loop, stages_in_declared_order]
  | cons f rest ih =>
    intro pre chain xref
    have hget : fz_array_get (some (.array (pre ++ f :: rest))) pre.length = some f := by
      simp only [fz_array_get]
      rw [List.get?_eq_getElem?, List.getElem?_append_right (le_refl _)]
      simp
    have ih2 := ih (pre ++ [f])
    simp only [List.append_assoc, List.singleton_append, List.length_append,
      List.length_singleton] at ih2
    simp only [List.length_cons, List.range', build_filter_chain_loop, stages_in_declared_order,
      hget]
    cases hb : build_filter load chain xref (some f) (fz_array_get ps pre.length) num gen with
    | ok c x => simp only [fz_outcome.bind]; exact ih2 c x
    | throw e x => simp [fz_outcome.bind]
    | diverge => simp [fz_outcome.bind]

theorem build_filter_chain_eq (load : pdf_xref → Int → Int → fz_outcome fz_buffer)
    (ps : Option fz_obj) (num gen : Int) (fs : List fz_obj) (chain : fz_stream)
    (xref : pdf_xref) :
    build_filter_chain load chain xref (some (.array fs)) ps num gen
      = stages_in_declared_order load (fz_array_get ps) num gen fs 0 chain xref := by
  have h := build_filter_chain_loop_range load ps num gen fs [] chain xref
  simpa [build_filter_chain, fz_array_len, List.range_eq_range'] using h

theorem fz_to_name_eq_crypt (o : fz_obj) :
    fz_to_name (some o) = "Crypt" ↔ o = .name "Crypt" := by
  cases o <;> simp [fz_to_name]

theorem any_range_get (items : List fz_obj) :
    (List.range items.length).any
        (fun i => decide (fz_to_name (fz_array_get (some (.array items)) i) = "Crypt")) = true
      ↔ fz_obj.name "Crypt" ∈ items := by
  simp only [List.any_eq_true, List.mem_range, decide_eq_true_eq, fz_array_get]
  constructor
  · rintro ⟨i, hi, h⟩
    rw [List.get?_eq_getElem?, List.getElem?_eq_getElem hi] at h
    rw [fz_to_name_eq_crypt] at h
    rw [← h]
    exact List.getElem_mem _
  · intro hm
    obtain ⟨i, hi, h⟩ := List.getElem_of_mem hm
    refine ⟨i, hi, ?_⟩
    rw [List.get?_eq_getElem?, List.getElem?_eq_getElem hi, h]
    rfl

theorem pdf_stream_has_crypt_iff (stm : Option fz_obj) :
    pdf_stream_has_crypt stm = true ↔ names_crypt (fz_dict_getsa stm "Filter" "F") := by
  unfold pdf_stream_has_crypt names_crypt
  cases h : fz_dict_getsa stm "Filter" "F" with
  | none => simp
  | some o =>
    cases o with
    | array items =>
      have := any_range_get items
      simp only [fz_to_name, fz_is_array, fz_array_len, if_true]
      simpa using this
    | name s => simp [fz_to_name, fz_is_array]
    | null => simp [fz_to_name, fz_is_array]
    | bool b => simp [fz_to_name, fz_is_array]
    | int i => simp [fz_to_name, fz_is_array]
    | string s => simp [fz_to_name, fz_is_array]
    | dict d => simp [fz_to_name, fz_is_array]
    | indirect n g => simp [fz_to_name, fz_is_array]

/-- C6: `pdf_stream_has_crypt` returns true if and only if the dictionary's
filter entry (key Filter, or its alias key F) is the name Crypt or a sequence
that contains the name Crypt at some position; it returns false when the
entry is absent, is another name, or is a sequence without Crypt. -/
theorem pdf_stream_has_crypt_spec (stm : Option fz_obj) :
    (pdf_stream_has_crypt stm = true ↔
      (fz_dict_getsa stm "Filter" "F" = some (.name "Crypt") ∨
        ∃ items, fz_dict_getsa stm "Filter" "F" = some (.array items) ∧
          fz_obj.name "Crypt" ∈ items)) ∧
    (fz_dict_getsa stm "Filter" "F" = none → pdf_stream_has_crypt stm = false) ∧
    (∀ s, s ≠ "Crypt" → fz_dict_getsa stm "Filter" "F" = some (.name s) →
      pdf_stream_has_crypt stm = false) ∧
    (∀ items, fz_obj.name "Crypt" ∉ items →
      fz_dict_getsa stm "Filter" "F" = some (.array items) →
      pdf_stream_has_crypt stm = false) := by
  have h := pdf_stream_has_crypt_iff stm
  unfold names_crypt at h
  refine ⟨h, ?_, ?_, ?_⟩
  · intro hn
    rw [← Bool.not_eq_true, h, hn]
    simp
  · intro s hs he
    rw [← Bool.not_eq_true, h, he]
    simp [hs]
  · intro items hi he
    rw [← Bool.not_eq_true, h, he]
    simp [hi]

/-- C6 at four dictionaries: Crypt under the alias key F, no filter entry, the
name FlateDecode, and a sequence without Crypt. -/
theorem pdf_stream_has_crypt_spec_witness :
    ((fz_dict_getsa (stream_dict [("F", .array [.name "Fl", .name "Crypt"])]) "Filter" "F"
          = some (.name "Crypt") ∨
        ∃ items, fz_dict_getsa (stream_dict [("F", .array [.name "Fl", .name "Crypt"])])
            "Filter" "F" = some (.array items) ∧ fz_obj.name "Crypt" ∈ items) ∧
      pdf_stream_has_crypt (stream_dict [("F", .array [.name "Fl", .name "Crypt"])]) = true) ∧
    (fz_dict_getsa (stream_dict [("Length", .int 3)]) "Filter" "F" = none ∧
      pdf_stream_has_crypt (stream_dict [("Length", .int 3)]) = false) ∧
    (("FlateDecode" ≠ "Crypt" ∧
        fz_dict_getsa (stream_dict [("Filter", .name "FlateDecode")]) "Filter" "F"
          = some (.name "FlateDecode")) ∧
      pdf_stream_has_crypt (stream_dict [("Filter", .name "FlateDecode")]) = false) ∧
    ((fz_obj.name "Crypt" ∉ [fz_obj.name "AHx", fz_obj.name "Fl"] ∧
        fz_dict_getsa (stream_dict [("Filter", .array [.name "AHx", .name "Fl"])]) "Filter" "F"
          = some (.array [.name "AHx", .name "Fl"])) ∧
      pdf_stream_has_crypt (stream_dict [("Filter", .array [.name "AHx", .name "Fl"])])
        = false) :=
  ⟨⟨Or.inr ⟨[.name "Fl", .name "Crypt"], rfl, by simp⟩,
      (pdf_stream_has_crypt_spec (stream_dict [("F", .array [.name "Fl", .name "Crypt"])])).1.2
        (Or.inr ⟨[.name "Fl", .name "Crypt"], rfl, by simp⟩)⟩,
   ⟨rfl, (pdf_stream_has_crypt_spec (stream_dict [("Length", .int 3)])).2.1 rfl⟩,
   ⟨⟨by decide, rfl⟩,
      (pdf_stream_has_crypt_spec (stream_dict [("Filter", .name "FlateDecode")])).2.2.1
        "FlateDecode" (by decide) rfl⟩,
   ⟨⟨by simp, rfl⟩,
      (pdf_stream_has_crypt_spec (stream_dict [("Filter", .array [.name "AHx", .name "Fl"])])).2.2.2
        [.name "AHx", .name "Fl"] (by simp) rfl⟩⟩

/-- C2: the chain `pdf_open_raw_filter` returns contains the document-wide
decrypt stage, keyed by the given object number and generation and placed
directly on the length-constrained stage, if and only if the document has a
cipher context and the filter entry neither is the name Crypt nor is a
sequence with Crypt among its elements; otherwise it is the length-constrained
stage alone.  The call returns whenever the cipher does not throw. -/
theorem pdf_open_raw_filter_crypt_stage (env : fz_env) (chain : fz_stream) (xref : pdf_xref)
    (stmobj : Option fz_obj) (num gen : Int) :
    (∀ s x1, pdf_open_raw_filter env chain xref stmobj num gen = .ok s x1 →
      ((∃ cr, xref.crypt = some cr ∧
          s = .crypt (.null chain (fz_to_int (fz_dict_gets stmobj "Length"))) cr num gen)
        ↔ (xref.crypt.isSome = true ∧ ¬ names_crypt (fz_dict_getsa stmobj "Filter" "F"))) ∧
      (count_stages is_crypt s = count_stages is_crypt chain + 1
        ↔ (xref.crypt.isSome = true ∧ ¬ names_crypt (fz_dict_getsa stmobj "Filter" "F"))) ∧
      (¬ (xref.crypt.isSome = true ∧ ¬ names_crypt (fz_dict_getsa stmobj "Filter" "F")) →
        s = .null chain (fz_to_int (fz_dict_gets stmobj "Length")))) ∧
    ((∀ cr, xref.crypt = some cr → env.pdf_open_crypt_error cr num gen = none) →
      ∃ s x1, pdf_open_raw_filter env chain xref stmobj num gen = .ok s x1) := by
  have hc := pdf_stream_has_crypt_iff stmobj
  constructor
  · intro s x1
    unfold pdf_open_raw_filter
    simp only [fz_open_null, opened, fz_keep_stream, emit]
    cases hcr : xref.crypt with
    | none =>
      simp only [Option.isSome_none, Bool.false_eq_true, false_and, not_false_eq_true,
        forall_true_left, iff_false]
      intro h
      injection h with h1 h2
      subst h1
      simp [count_stages, is_crypt]
    | some cr =>
      cases hh : pdf_stream_has_crypt stmobj with
      | true =>
        have hn : names_crypt (fz_dict_getsa stmobj "Filter" "F") := hc.mp hh
        simp only [Bool.not_true, Bool.false_eq_true, if_false, Option.isSome_some, true_and,
          hn, not_true_eq_false, not_false_eq_true, forall_true_left, iff_false]
        intro h
        injection h with h1 h2
        subst h1
        simp [count_stages, is_crypt]
      | false =>
        have hn : ¬ names_crypt (fz_dict_getsa stmobj "Filter" "F") := by
          intro h
          rw [← hc, hh] at h
          exact Bool.false_ne_true h
        simp only [Bool.not_false, if_true, Option.isSome_some, true_and, hn,
          not_false_eq_true, not_true_eq_false, iff_true, false_implies, and_true]
        unfold pdf_open_crypt
        cases he : env.pdf_open_crypt_error cr num gen with
        | some e => simp
        | none =>
          simp only
          intro h
          injection h with h1 h2
          subst h1
          simp [count_stages, is_crypt]
  · intro hne
    unfold pdf_open_raw_filter
    simp only [fz_open_null, opened, fz_keep_stream, emit]
    cases hcr : xref.crypt with
    | none => exact ⟨_, _, rfl⟩
    | some cr =>
      cases hh : pdf_stream_has_crypt stmobj with
      | true => exact ⟨_, _, rfl⟩
      | false =>
        simp only [Bool.not_false, if_true, pdf_open_crypt, hne cr hcr]
        exact ⟨_, _, rfl⟩

/-- C2 at a Flate stream, object 7 0, of an encrypted document: the decrypt
stage for 7 0 sits on the length-constrained stage. -/
theorem pdf_open_raw_filter_crypt_stage_witness :
    pdf_open_raw_filter env_quiet (.file 0) xref_encrypted dict_flate 7 0
      = .ok (.crypt (.null (.file 0) 10) { key := [1] } 7 0)
          { xref_encrypted with
            trace := [.keep (.file 0), .opened (.null (.file 0) 10),
              .opened (.crypt (.null (.file 0) 10) { key := [1] } 7 0)] } ∧
    ((∃ cr, xref_encrypted.crypt = some cr ∧
        fz_stream.crypt (.null (.file 0) 10) { key := [1] } 7 0
          = .crypt (.null (.file 0) (fz_to_int (fz_dict_gets dict_flate "Length"))) cr 7 0)
      ↔ (xref_encrypted.crypt.isSome = true ∧
          ¬ names_crypt (fz_dict_getsa dict_flate "Filter" "F"))) ∧
    (count_stages is_crypt (.crypt (.null (.file 0) 10) { key := [1] } 7 0)
        = count_stages is_crypt (.file 0) + 1
      ↔ (xref_encrypted.crypt.isSome = true ∧
          ¬ names_crypt (fz_dict_getsa dict_flate "Filter" "F"))) :=
  ⟨rfl,
   ((pdf_open_raw_filter_crypt_stage env_quiet (.file 0) xref_encrypted dict_flate 7 0).1
      _ _ rfl).1,
   ((pdf_open_raw_filter_crypt_stage env_quiet (.file 0) xref_encrypted dict_flate 7 0).1
      _ _ rfl).2.1⟩

theorem fz_to_int_gt_one (o : Option fz_obj) :
    fz_to_int o > 1 ↔ ∃ k, o = some (.int k) ∧ k > 1 := by
  cases o with
  | none => simp [fz_to_int]
  | some v => cases v <;> simp [fz_to_int]

/-- C3: `build_filter` wraps its result in a predictor-reversal stage if and
only if the filter is Flate or Lzw, in either spelling, and the parameter
map's Predictor value is an integer greater than 1: in that case the call
returns the predictor stage over the Flate or Lzw stage over the input, and in
every other case a returned chain has no more predictor stages than the
input. -/
theorem build_filter_predictor_iff (load : pdf_xref → Int → Int → fz_outcome fz_buffer)
    (chain : fz_stream) (xref : pdf_xref) (f p : Option fz_obj) (num gen : Int) :
    (∀ s x1, build_filter load chain xref f p num gen = .ok s x1 →
      (count_stages is_predict s = count_stages is_predict chain + 1 ↔
        ((fz_to_name f = "FlateDecode" ∨ fz_to_name f = "Fl" ∨ fz_to_name f = "LZWDecode" ∨
            fz_to_name f = "LZW") ∧
          ∃ k, fz_dict_gets p "Predictor" = some (.int k) ∧ k > 1)) ∧
      (¬ ((fz_to_name f = "FlateDecode" ∨ fz_to_name f = "Fl" ∨ fz_to_name f = "LZWDecode" ∨
            fz_to_name f = "LZW") ∧
          ∃ k, fz_dict_gets p "Predictor" = some (.int k) ∧ k > 1) →
        count_stages is_predict s = count_stages is_predict chain)) ∧
    (((fz_to_name f = "FlateDecode" ∨ fz_to_name f = "Fl" ∨ fz_to_name f = "LZWDecode" ∨
          fz_to_name f = "LZW") ∧
        ∃ k, fz_dict_gets p "Predictor" = some (.int k) ∧ k > 1) →
      ∃ x1, build_filter load chain xref f p num gen = .ok (.predict (.flated chain) p) x1 ∨
        build_filter load chain xref f p num gen = .ok (.predict (.lzwd chain p) p) x1) := by
  refine build_filter_cases load chain xref f p num gen
    (fun n r =>
      (∀ s x1, r = .ok s x1 →
        (count_stages is_predict s = count_stages is_predict chain + 1 ↔
          ((n = "FlateDecode" ∨ n = "Fl" ∨ n = "LZWDecode" ∨ n = "LZW") ∧
            ∃ k, fz_dict_gets p "Predictor" = some (.int k) ∧ k > 1)) ∧
        (¬ ((n = "FlateDecode" ∨ n = "Fl" ∨ n = "LZWDecode" ∨ n = "LZW") ∧
            ∃ k, fz_dict_gets p "Predictor" = some (.int k) ∧ k > 1) →
          count_stages is_predict s = count_stages is_predict chain)) ∧
      (((n = "FlateDecode" ∨ n = "Fl" ∨ n = "LZWDecode" ∨ n = "LZW") ∧
          ∃ k, fz_dict_gets p "Predictor" = some (.int k) ∧ k > 1) →
        ∃ x1, r = .ok (.predict (.flated chain) p) x1 ∨ r = .ok (.predict (.lzwd chain p) p) x1))
    ?_ ?_ ?_ ?_ ?_ ?_ ?_ ?_ ?_ ?_ ?_ ?_ ?_ ?_ ?_ ?_ ?_ ?_ ?_
  · intro n hn
    rcases hn with hn | hn <;> subst hn <;> simp [count_stages, is_predict]
  · intro n hn
    rcases hn with hn | hn <;> subst hn <;> simp [count_stages, is_predict]
  · intro n hn
    rcases hn with hn | hn <;> subst hn <;> simp [count_stages, is_predict]
  · intro n hn
    rcases hn with hn | hn <;> subst hn <;> simp [count_stages, is_predict]
  · intro n hn
    rcases hn with hn | hn <;> subst hn <;> simp [count_stages, is_predict]
  · intro n hn hp
    rw [fz_to_int_gt_one] at hp
    refine ⟨?_, fun _ => ⟨_, Or.inl rfl⟩⟩
    intro s x1 h
    injection h with h1 h2
    subst h1
    rcases hn with hn | hn <;> subst hn <;> simp [count_stages, is_predict, hp]
  · intro n hn hp
    rw [fz_to_int_gt_one] at hp
    rcases hn with hn | hn <;> subst hn <;> simp [count_stages, is_predict, hp]
  · intro n hn hp
    rw [fz_to_int_gt_one] at hp
    refine ⟨?_, fun _ => ⟨_, Or.inr rfl⟩⟩
    intro s x1 h
    injection h with h1 h2
    subst h1
    rcases hn with hn | hn <;> subst hn <;> simp [count_stages, is_predict, hp]
  · intro n hn hp
    rw [fz_to_int_gt_one] at hp
    rcases hn with hn | hn <;> subst hn <;> simp [count_stages, is_predict, hp]
  · intro n hn o _ g x1 _
    subst hn
    simp [count_stages, is_predict]
  · intro n hn o _ e x1 _
    subst hn
    simp
  · intro n hn o _ _
    subst hn
    simp
  · intro n hn _
    subst hn
    simp [count_stages, is_predict]
  · intro n hn
    subst hn
    simp
  · intro n hn _
    subst hn
    simp
  · intro n hn cr _ _ ctx _
    subst hn
    simp [count_stages, is_predict]
  · intro n hn cr _ _ _
    subst hn
    simp
  · intro n hn cr _ _
    subst hn
    simp
  · intro n h1 h2 h3 h4 h5 h6 h7 h8 h9 h10
    have hk : ¬ (n = "FlateDecode" ∨ n = "Fl" ∨ n = "LZWDecode" ∨ n = "LZW") := by
      rintro (h | h | h | h)
      · exact h6 (Or.inl h)
      · exact h6 (Or.inr h)
      · exact h7 (Or.inl h)
      · exact h7 (Or.inr h)
    simp [hk]

/-- C3 at `Fl` with Predictor 12 (a predictor stage is added) and at `Fl`
with Predictor 1 (none is added). -/
theorem build_filter_predictor_iff_witness :
    build_filter (fun _ _ _ => .diverge) (.file 0) xref_empty (some (.name "Fl"))
        (stream_dict [("Predictor", .int 12)]) 7 0
      = .ok (.predict (.flated (.file 0)) (stream_dict [("Predictor", .int 12)]))
          { xref_empty with
            trace := [.opened (.flated (.file 0)),
              .opened (.predict (.flated (.file 0)) (stream_dict [("Predictor", .int 12)]))] } ∧
    (count_stages is_predict
          (.predict (.flated (.file 0)) (stream_dict [("Predictor", .int 12)]))
        = count_stages is_predict (.file 0) + 1 ↔
      ((fz_to_name (some (.name "Fl")) = "FlateDecode" ∨ fz_to_name (some (.name "Fl")) = "Fl" ∨
          fz_to_name (some (.name "Fl")) = "LZWDecode" ∨ fz_to_name (some (.name "Fl")) = "LZW") ∧
        ∃ k, fz_dict_gets (stream_dict [("Predictor", .int 12)]) "Predictor" = some (.int k) ∧
          k > 1)) ∧
    build_filter (fun _ _ _ => .diverge) (.file 0) xref_empty (some (.name "Fl"))
        (stream_dict [("Predictor", .int 1)]) 7 0
      = .ok (.flated (.file 0)) { xref_empty with trace := [.opened (.flated (.file 0))] } ∧
    count_stages is_predict (.flated (.file 0)) = count_stages is_predict (.file 0) :=
  ⟨rfl,
   ((build_filter_predictor_iff (fun _ _ _ => .diverge) (.file 0) xref_empty (some (.name "Fl"))
      (stream_dict [("Predictor", .int 12)]) 7 0).1 _ _ rfl).1,
   rfl,
   ((build_filter_predictor_iff (fun _ _ _ => .diverge) (.file 0) xref_empty (some (.name "Fl"))
      (stream_dict [("Predictor", .int 1)]) 7 0).1 _ _ rfl).2
      (by simp [fz_dict_gets, stream_dict])⟩

/-- C4: `build_filter` called with an abbreviated filter name builds the same
stage, with the same effects, as with the canonical name: AHx as
ASCIIHexDecode, A85 as ASCII85Decode, CCF as CCITTFaxDecode, DCT as DCTDecode,
RL as RunLengthDecode, Fl as FlateDecode, LZW as LZWDecode. -/
theorem build_filter_abbreviation (load : pdf_xref → Int → Int → fz_outcome fz_buffer)
    (chain : fz_stream) (xref : pdf_xref) (p : Option fz_obj) (num gen : Int) :
    (build_filter load chain xref (some (.name "AHx")) p num gen
        = build_filter load chain xref (some (.name "ASCIIHexDecode")) p num gen ∧
      build_filter load chain xref (some (.name "ASCIIHexDecode")) p num gen
        = .ok (.ahxd chain) (emit (.opened (.ahxd chain)) xref)) ∧
    (build_filter load chain xref (some (.name "A85")) p num gen
        = build_filter load chain xref (some (.name "ASCII85Decode")) p num gen ∧
      build_filter load chain xref (some (.name "ASCII85Decode")) p num gen
        = .ok (.a85d chain) (emit (.opened (.a85d chain)) xref)) ∧
    (build_filter load chain xref (some (.name "CCF")) p num gen
        = build_filter load chain xref (some (.name "CCITTFaxDecode")) p num gen ∧
      build_filter load chain xref (some (.name "CCITTFaxDecode")) p num gen
        = .ok (.faxd chain p) (emit (.opened (.faxd chain p)) xref)) ∧
    (build_filter load chain xref (some (.name "DCT")) p num gen
        = build_filter load chain xref (some (.name "DCTDecode")) p num gen ∧
      build_filter load chain xref (some (.name "DCTDecode")) p num gen
        = .ok (.dctd chain p) (emit (.opened (.dctd chain p)) xref)) ∧
    (build_filter load chain xref (some (.name "RL")) p num gen
        = build_filter load chain xref (some (.name "RunLengthDecode")) p num gen ∧
      build_filter load chain xref (some (.name "RunLengthDecode")) p num gen
        = .ok (.rld chain) (emit (.opened (.rld chain)) xref)) ∧
    (build_filter load chain xref (some (.name "Fl")) p num gen
        = build_filter load chain xref (some (.name "FlateDecode")) p num gen ∧
      ∃ x1, build_filter load chain xref (some (.name "FlateDecode")) p num gen
          = .ok (.flated chain) x1 ∨
        build_filter load chain xref (some (.name "FlateDecode")) p num gen
          = .ok (.predict (.flated chain) p) x1) ∧
    (build_filter load chain xref (some (.name "LZW")) p num gen
        = build_filter load chain xref (some (.name "LZWDecode")) p num gen ∧
      ∃ x1, build_filter load chain xref (some (.name "LZWDecode")) p num gen
          = .ok (.lzwd chain p) x1 ∨
        build_filter load chain xref (some (.name "LZWDecode")) p num gen
          = .ok (.predict (.lzwd chain p) p) x1) := by
  refine ⟨⟨rfl, rfl⟩, ⟨rfl, rfl⟩, ⟨rfl, rfl⟩, ⟨rfl, rfl⟩, ⟨rfl, rfl⟩, ⟨rfl, ?_⟩, ⟨rfl, ?_⟩⟩
  · by_cases hp : fz_to_int (fz_dict_gets p "Predictor") > 1
    · exact ⟨_, Or.inr (by simp [build_filter, fz_to_name, hp, fz_open_flated, fz_open_predict, opened]; rfl)⟩
    · exact ⟨_, Or.inl (by simp [build_filter, fz_to_name, hp, fz_open_flated, opened]; rfl)⟩
  · by_cases hp : fz_to_int (fz_dict_gets p "Predictor") > 1
    · exact ⟨_, Or.inr (by simp [build_filter, fz_to_name, hp, fz_open_lzwd, fz_open_predict, opened]; rfl)⟩
    · exact ⟨_, Or.inl (by simp [build_filter, fz_to_name, hp, fz_open_lzwd, opened]; rfl)⟩

theorem wrap32_of_range (x : Int) (h0 : 0 ≤ x) (h1 : x < 2 ^ 31) : wrap32 x = x := by
  unfold wrap32
  have : (x + 2 ^ 31) % 2 ^ 32 = x + 2 ^ 31 := Int.emod_eq_of_lt (by omega) (by omega)
  omega

theorem pdf_load_stream_loop_range (rest : List fz_obj) :
    ∀ (pre : List fz_obj) (len : Int),
      pdf_load_stream_loop (some (.array (pre ++ rest)))
          (List.range' pre.length rest.length) len
        = (rest.map (fun o => fz_to_name (some o))).foldl pdf_guess_filter_length len := by
  induction rest with
  | nil => intro pre len; simp [pdf_load_stream_loop]
  | cons f rest ih =>
    intro pre len
    have hget : fz_array_get (some (.array (pre ++ f :: rest))) pre.length = some f := by
      simp only [fz_array_get]
      rw [List.get?_eq_getElem?, List.getElem?_append_right (le_refl _)]
      simp
    have ih2 := ih (pre ++ [f])
    simp only [List.append_assoc, List.singleton_append, List.length_append,
      List.length_singleton] at ih2
    simp only [List.length_cons, List.range', pdf_load_stream_loop, hget, List.map_cons,
      List.foldl_cons]
    exact ih2 _

theorem pdf_guess_filter_length_empty (len : Int) : pdf_guess_filter_length len "" = len := by
  simp [pdf_guess_filter_length]

theorem pdf_load_stream_estimate_eq_foldl (dict : Option fz_obj) :
    pdf_load_stream_estimate dict
      = (filter_names (fz_dict_gets dict "Filter")).foldl pdf_guess_filter_length
          (fz_to_int (fz_dict_gets dict "Length")) := by
  unfold pdf_load_stream_estimate
  cases h : fz_dict_gets dict "Filter" with
  | none =>
    simp [fz_to_name, fz_array_len, filter_names, pdf_load_stream_loop,
      pdf_guess_filter_length_empty]
  | some o =>
    cases o with
    | array items =>
      have hl := pdf_load_stream_loop_range items []
      simp only [List.nil_append, List.length_nil] at hl
      simp only [fz_to_name, fz_array_len, filter_names, pdf_guess_filter_length_empty,
        List.range_eq_range', hl]
    | name s => simp [fz_to_name, fz_array_len, filter_names, pdf_load_stream_loop]
    | null => simp [fz_to_name, fz_array_len, filter_names, pdf_load_stream_loop,
        pdf_guess_filter_length_empty]
    | bool b => simp [fz_to_name, fz_array_len, filter_names, pdf_load_stream_loop,
        pdf_guess_filter_length_empty]
    | int i => simp [fz_to_name, fz_array_len, filter_names, pdf_load_stream_loop,
        pdf_guess_filter_length_empty]
    | string s => simp [fz_to_name, fz_array_len, filter_names, pdf_load_stream_loop,
        pdf_guess_filter_length_empty]
    | dict d => simp [fz_to_name, fz_array_len, filter_names, pdf_load_stream_loop,
        pdf_guess_filter_length_empty]
    | indirect n g => simp [fz_to_name, fz_array_len, filter_names, pdf_load_stream_loop,
        pdf_guess_filter_length_empty]

/-- C5: the size estimate of `pdf_load_stream` is the declared length
transformed by `pdf_guess_filter_length` for each filter name in document
order (the single name, or each element of a sequence).  For a non-negative
length whose products stay within 32 bits, ASCIIHexDecode gives len/2,
ASCII85Decode len*4/5, FlateDecode and RunLengthDecode len*3, LZWDecode len*2,
and any other name leaves len unchanged.  The estimate of 1000 under
FlateDecode is 3000, under [ASCIIHexDecode, FlateDecode] 1500, under [] 1000. -/
theorem pdf_load_stream_estimate_spec :
    (∀ dict, pdf_load_stream_estimate dict
      = (filter_names (fz_dict_gets dict "Filter")).foldl pdf_guess_filter_length
          (fz_to_int (fz_dict_gets dict "Length"))) ∧
    (∀ len : Int, 0 ≤ len → pdf_guess_filter_length len "ASCIIHexDecode" = len / 2) ∧
    (∀ len : Int, 0 ≤ len → len * 4 < 2 ^ 31 →
      pdf_guess_filter_length len "ASCII85Decode" = len * 4 / 5) ∧
    (∀ len : Int, 0 ≤ len → len * 3 < 2 ^ 31 →
      pdf_guess_filter_length len "FlateDecode" = len * 3 ∧
      pdf_guess_filter_length len "RunLengthDecode" = len * 3) ∧
    (∀ len : Int, 0 ≤ len → len * 2 < 2 ^ 31 →
      pdf_guess_filter_length len "LZWDecode" = len * 2) ∧
    (∀ (len : Int) (name : String), name ≠ "ASCIIHexDecode" → name ≠ "ASCII85Decode" →
      name ≠ "FlateDecode" → name ≠ "RunLengthDecode" → name ≠ "LZWDecode" →
      pdf_guess_filter_length len name = len) ∧
    pdf_load_stream_estimate (dict_with_filter 1000 (.name "FlateDecode")) = 3000 ∧
    pdf_load_stream_estimate
      (dict_with_filter 1000 (.array [.name "ASCIIHexDecode", .name "FlateDecode"])) = 1500 ∧
    pdf_load_stream_estimate (dict_with_filter 1000 (.array [])) = 1000 := by
  refine ⟨pdf_load_stream_estimate_eq_foldl, ?_, ?_, ?_, ?_, ?_, ?_, ?_, ?_⟩
  · intro len h0
    simp only [pdf_guess_filter_length, if_true]
    exact Int.tdiv_eq_ediv h0 (by decide)
  · intro len h0 h1
    have hw := wrap32_of_range (len * 4) (by omega) h1
    simp only [pdf_guess_filter_length, hw]
    simp
    exact Int.tdiv_eq_ediv (by omega) (by decide)
  · intro len h0 h1
    have hw := wrap32_of_range (len * 3) (by omega) h1
    simp [pdf_guess_filter_length, hw]
  · intro len h0 h1
    have hw := wrap32_of_range (len * 2) (by omega) h1
    simp [pdf_guess_filter_length, hw]
  · intro len name h1 h2 h3 h4 h5
    simp [pdf_guess_filter_length, h1, h2, h3, h4, h5]
  · rfl
  · rfl
  · rfl

/-- C5 at the declared length 1000: 500 under ASCIIHexDecode, 800 under
ASCII85Decode, 3000 under FlateDecode and RunLengthDecode, 2000 under
LZWDecode, 1000 under DCTDecode. -/
theorem pdf_load_stream_estimate_spec_witness :
    ((0 : Int) ≤ 1000 ∧ pdf_guess_filter_length 1000 "ASCIIHexDecode" = 1000 / 2) ∧
    (((0 : Int) ≤ 1000 ∧ (1000 : Int) * 4 < 2 ^ 31) ∧
      pdf_guess_filter_length 1000 "ASCII85Decode" = 1000 * 4 / 5) ∧
    (((0 : Int) ≤ 1000 ∧ (1000 : Int) * 3 < 2 ^ 31) ∧
      pdf_guess_filter_length 1000 "FlateDecode" = 1000 * 3 ∧
      pdf_guess_filter_length 1000 "RunLengthDecode" = 1000 * 3) ∧
    (((0 : Int) ≤ 1000 ∧ (1000 : Int) * 2 < 2 ^ 31) ∧
      pdf_guess_filter_length 1000 "LZWDecode" = 1000 * 2) ∧
    pdf_guess_filter_length 1000 "DCTDecode" = 1000 :=
  ⟨⟨by decide, pdf_load_stream_estimate_spec.2.1 1000 (by decide)⟩,
   ⟨⟨by decide, by decide⟩, pdf_load_stream_estimate_spec.2.2.1 1000 (by decide) (by decide)⟩,
   ⟨⟨by decide, by decide⟩,
    pdf_load_stream_estimate_spec.2.2.2.1 1000 (by decide) (by decide)⟩,
   ⟨⟨by decide, by decide⟩,
    pdf_load_stream_estimate_spec.2.2.2.2.1 1000 (by decide) (by decide)⟩,
   pdf_load_stream_estimate_spec.2.2.2.2.2.1 1000 "DCTDecode" (by decide) (by decide)
     (by decide) (by decide) (by decide)⟩

theorem fz_array_get_eq_params_at (ps : Option fz_obj) : fz_array_get ps = params_at ps := by
  funext i
  unfold fz_array_get params_at
  cases ps with
  | none => rfl
  | some o =>
    cases o with
    | array items =>
      by_cases h : i < items.length
      · simp [h, List.getElem?_eq_getElem]
      · simp [h, List.getElem?_eq_none (Nat.le_of_not_lt h)]
    | name s => rfl
    | null => rfl
    | bool b => rfl
    | int i => rfl
    | string s => rfl
    | dict d => rfl
    | indirect n g => rfl

theorem build_filter_ok_of_no_globals (load : pdf_xref → Int → Int → fz_outcome fz_buffer)
    (chain : fz_stream) (xref : pdf_xref) (f p : Option fz_obj) (num gen : Int)
    (h : fz_to_name f = "JBIG2Decode" → fz_dict_gets p "JBIG2Globals" = none) :
    ∃ s x1, build_filter load chain xref f p num gen = .ok s x1 := by
  revert h
  refine build_filter_cases load chain xref f p num gen
    (fun n r => (n = "JBIG2Decode" → fz_dict_gets p "JBIG2Globals" = none) →
      ∃ s x1, r = .ok s x1)
    ?_ ?_ ?_ ?_ ?_ ?_ ?_ ?_ ?_ ?_ ?_ ?_ ?_ ?_ ?_ ?_ ?_ ?_ ?_
  · intro n _ _; exact ⟨_, _, rfl⟩
  · intro n _ _; exact ⟨_, _, rfl⟩
  · intro n _ _; exact ⟨_, _, rfl⟩
  · intro n _ _; exact ⟨_, _, rfl⟩
  · intro n _ _; exact ⟨_, _, rfl⟩
  · intro n _ _ _; exact ⟨_, _, rfl⟩
  · intro n _ _ _; exact ⟨_, _, rfl⟩
  · intro n _ _ _; exact ⟨_, _, rfl⟩
  · intro n _ _ _; exact ⟨_, _, rfl⟩
  · intro n hn o ho g x1 _ hg; rw [hg hn] at ho; cases ho
  · intro n hn o ho e x1 _ hg; rw [hg hn] at ho; cases ho
  · intro n hn o ho _ hg; rw [hg hn] at ho; cases ho
  · intro n _ _ _; exact ⟨_, _, rfl⟩
  · intro n _ _; exact ⟨_, _, rfl⟩
  · intro n _ _ _; exact ⟨_, _, rfl⟩
  · intro n _ cr _ _ ctx _ _; exact ⟨_, _, rfl⟩
  · intro n _ cr _ _ _ _; exact ⟨_, _, rfl⟩
  · intro n _ cr _ _ _; exact ⟨_, _, rfl⟩
  · intro n _ _ _ _ _ _ _ _ _ _ _; exact ⟨_, _, rfl⟩

theorem stages_without_params_ok (load : pdf_xref → Int → Int → fz_outcome fz_buffer)
    (num gen : Int) (fs : List fz_obj) :
    ∀ (i0 : Nat) (chain : fz_stream) (xref : pdf_xref),
      ∃ s x1, stages_in_declared_order load (fun _ => none) num gen fs i0 chain xref
        = .ok s x1 := by
  induction fs with
  | nil => intro i0 chain xref; exact ⟨_, _, rfl⟩
  | cons f rest ih =>
    intro i0 chain xref
    obtain ⟨s, x1, h⟩ := build_filter_ok_of_no_globals load chain xref (some f) none num gen
      (fun _ => rfl)
    simp only [stages_in_declared_order, h, fz_outcome.bind]
    exact ih _ _ _

/-- C7: `build_filter_chain` builds the stage at position `i` with the
parameter found at position `i` of the params value when that value is a
sequence with a position `i`, and with the absent (empty) parameter map
otherwise.  In particular, when params is not a sequence (a single parameter
map, say) every stage is built with no parameters, and the call returns a
chain: no error is raised. -/
theorem build_filter_chain_params (load : pdf_xref → Int → Int → fz_outcome fz_buffer)
    (chain : fz_stream) (xref : pdf_xref) (fs : List fz_obj) (ps : Option fz_obj)
    (num gen : Int) :
    build_filter_chain load chain xref (some (.array fs)) ps num gen
        = stages_in_declared_order load (params_at ps) num gen fs 0 chain xref ∧
    ((∀ items, ps ≠ some (.array items)) →
      build_filter_chain load chain xref (some (.array fs)) ps num gen
          = stages_in_declared_order load (fun _ => none) num gen fs 0 chain xref ∧
      ∃ s x1, build_filter_chain load chain xref (some (.array fs)) ps num gen = .ok s x1) := by
  have h1 := build_filter_chain_eq load ps num gen fs chain xref
  rw [fz_array_get_eq_params_at] at h1
  refine ⟨h1, ?_⟩
  intro hps
  have hp : params_at ps = fun _ => none := by
    funext i
    unfold params_at
    cases ps with
    | none => rfl
    | some o =>
      cases o with
      | array items => exact absurd rfl (hps items)
      | name s => rfl
      | null => rfl
      | bool b => rfl
      | int i => rfl
      | string s => rfl
      | dict d => rfl
      | indirect n g => rfl
  rw [h1, hp]
  exact ⟨rfl, stages_without_params_ok load num gen fs 0 chain xref⟩

/-- C7 at the filter sequence [LZW, JBIG2Decode] with a single parameter map
holding Predictor and JBIG2Globals: both stages are built with no parameters,
so no predictor stage is added and no globals are loaded. -/
theorem build_filter_chain_params_witness :
    (∀ items, stream_dict [("Predictor", .int 12), ("JBIG2Globals", .indirect 5 0)]
        ≠ some (.array items)) ∧
    build_filter_chain (fun _ _ _ => .diverge) (.file 0) xref_empty
        (some (.array [.name "LZW", .name "JBIG2Decode"]))
        (stream_dict [("Predictor", .int 12), ("JBIG2Globals", .indirect 5 0)]) 7 0
      = stages_in_declared_order (fun _ _ _ => .diverge) (fun _ => none) 7 0
          [.name "LZW", .name "JBIG2Decode"] 0 (.file 0) xref_empty ∧
    build_filter_chain (fun _ _ _ => .diverge) (.file 0) xref_empty
        (some (.array [.name "LZW", .name "JBIG2Decode"]))
        (stream_dict [("Predictor", .int 12), ("JBIG2Globals", .indirect 5 0)]) 7 0
      = .ok (.jbig2d (.lzwd (.file 0) none) none)
          { xref_empty with
            trace := [.opened (.lzwd (.file 0) none),
              .opened (.jbig2d (.lzwd (.file 0) none) none)] } :=
  ⟨fun _ h => by simp [stream_dict] at h,
   ((build_filter_chain_params (fun _ _ _ => .diverge) (.file 0) xref_empty
      [.name "LZW", .name "JBIG2Decode"]
      (stream_dict [("Predictor", .int 12), ("JBIG2Globals", .indirect 5 0)]) 7 0).2
      (fun _ h => by simp [stream_dict] at h)).1,
   rfl⟩

/-- C8: `pdf_open_raw_stream` and `pdf_open_stream`, called with an object
number below 0 or not below the table length, throw the out-of-range error in
the state they were called in, whatever the environment: nothing was cached,
no stage constructed, the file not sought.  Called with an in-range number
whose entry has stream offset 0 after caching, they throw the not-a-stream
error in the state caching returned: no stage was constructed. -/
theorem pdf_open_stream_errors (env : fz_env)
    (load : pdf_xref → Int → Int → fz_outcome fz_buffer) (xref : pdf_xref) (num gen : Int) :
    ((num < 0 ∨ num ≥ xref.len) →
      pdf_open_raw_stream env xref num gen = .throw (.object_out_of_range num gen) xref ∧
      pdf_open_stream env load xref num gen = .throw (.object_out_of_range num gen) xref) ∧
    (∀ x1, ¬ (num < 0 ∨ num ≥ xref.len) → env.pdf_cache_object xref num gen = .ok () x1 →
      (table_entry x1 num).stm_ofs = 0 →
      pdf_open_raw_stream env xref num gen = .throw .not_a_stream x1 ∧
      pdf_open_stream env load xref num gen = .throw .not_a_stream x1) := by
  constructor
  · intro h
    simp [pdf_open_raw_stream, pdf_open_stream, h]
  · intro x1 h hc h0
    simp [pdf_open_raw_stream, pdf_open_stream, h, hc, h0]

/-- C8 at a document of two objects: object 5 is out of range, object -1 is
out of range, object 0 has no stream offset. -/
theorem pdf_open_stream_errors_witness :
    (((5 : Int) < 0 ∨ (5 : Int) ≥ xref_two.len) ∧
      pdf_open_raw_stream env_quiet xref_two 5 0 = .throw (.object_out_of_range 5 0) xref_two ∧
      pdf_open_stream env_quiet (fun _ _ _ => .diverge) xref_two 5 0
        = .throw (.object_out_of_range 5 0) xref_two) ∧
    (((-1 : Int) < 0 ∨ (-1 : Int) ≥ xref_two.len) ∧
      pdf_open_raw_stream env_quiet xref_two (-1) 0
        = .throw (.object_out_of_range (-1) 0) xref_two ∧
      pdf_open_stream env_quiet (fun _ _ _ => .diverge) xref_two (-1) 0
        = .throw (.object_out_of_range (-1) 0) xref_two) ∧
    ((¬ ((0 : Int) < 0 ∨ (0 : Int) ≥ xref_two.len) ∧
        env_quiet.pdf_cache_object xref_two 0 0 = .ok () xref_two ∧
        (table_entry xref_two 0).stm_ofs = 0) ∧
      pdf_open_raw_stream env_quiet xref_two 0 0 = .throw .not_a_stream xref_two ∧
      pdf_open_stream env_quiet (fun _ _ _ => .diverge) xref_two 0 0
        = .throw .not_a_stream xref_two) :=
  ⟨⟨by decide, (pdf_open_stream_errors env_quiet (fun _ _ _ => .diverge) xref_two 5 0).1
      (by decide)⟩,
   ⟨by decide, (pdf_open_stream_errors env_quiet (fun _ _ _ => .diverge) xref_two (-1) 0).1
      (by decide)⟩,
   ⟨⟨by decide, rfl, rfl⟩,
    (pdf_open_stream_errors env_quiet (fun _ _ _ => .diverge) xref_two 0 0).2 xref_two
      (by decide) rfl rfl⟩⟩

theorem build_filter_count (is_kind : fz_stream → Bool)
    (hk : ∀ t, is_kind t = true → is_null t = true ∨ is_crypt t = true)
    (load : pdf_xref → Int → Int → fz_outcome fz_buffer)
    (chain : fz_stream) (xref : pdf_xref) (f p : Option fz_obj) (num gen : Int)
    (s : fz_stream) (x1 : pdf_xref) (h : build_filter load chain xref f p num gen = .ok s x1) :
    count_stages is_kind s = count_stages is_kind chain := by
  have hf : ∀ t, is_null t = false → is_crypt t = false → is_kind t = false := by
    intro t h1 h2
    cases hkt : is_kind t with
    | false => rfl
    | true =>
      rcases hk t hkt with h3 | h3
      · rw [h1] at h3; cases h3
      · rw [h2] at h3; cases h3
  revert h
  refine build_filter_cases load chain xref f p num gen
    (fun _ r => r = .ok s x1 → count_stages is_kind s = count_stages is_kind chain)
    ?_ ?_ ?_ ?_ ?_ ?_ ?_ ?_ ?_ ?_ ?_ ?_ ?_ ?_ ?_ ?_ ?_ ?_ ?_
  · intro n _ h; injection h with h1 _; subst h1; simp [count_stages, hf, is_null, is_crypt]
  · intro n _ h; injection h with h1 _; subst h1; simp [count_stages, hf, is_null, is_crypt]
  · intro n _ h; injection h with h1 _; subst h1; simp [count_stages, hf, is_null, is_crypt]
  · intro n _ h; injection h with h1 _; subst h1; simp [count_stages, hf, is_null, is_crypt]
  · intro n _ h; injection h with h1 _; subst h1; simp [count_stages, hf, is_null, is_crypt]
  · intro n _ _ h; injection h with h1 _; subst h1; simp [count_stages, hf, is_null, is_crypt]
  · intro n _ _ h; injection h with h1 _; subst h1; simp [count_stages, hf, is_null, is_crypt]
  · intro n _ _ h; injection h with h1 _; subst h1; simp [count_stages, hf, is_null, is_crypt]
  · intro n _ _ h; injection h with h1 _; subst h1; simp [count_stages, hf, is_null, is_crypt]
  · intro n _ o _ g x2 _ h; injection h with h1 _; subst h1; simp [count_stages, hf, is_null, is_crypt]
  · intro n _ o _ e x2 _ h; cases h
  · intro n _ o _ _ h; cases h
  · intro n _ _ h; injection h with h1 _; subst h1; simp [count_stages, hf, is_null, is_crypt]
  · intro n _ h; injection h with h1 _; subst h1; rfl
  · intro n _ _ h; injection h with h1 _; subst h1; rfl
  · intro n _ cr _ _ ctx _ h; injection h with h1 _; subst h1
    simp [count_stages, hf, is_null, is_crypt]
  · intro n _ cr _ _ _ h; injection h with h1 _; subst h1; rfl
  · intro n _ cr _ _ h; injection h with h1 _; subst h1; rfl
  · intro n _ _ _ _ _ _ _ _ _ _ h; injection h with h1 _; subst h1; rfl

theorem stages_count (is_kind : fz_stream → Bool)
    (hk : ∀ t, is_kind t = true → is_null t = true ∨ is_crypt t = true)
    (load : pdf_xref → Int → Int → fz_outcome fz_buffer) (params : Nat → Option fz_obj)
    (num gen : Int) (fs : List fz_obj) :
    ∀ (i0 : Nat) (chain : fz_stream) (xref : pdf_xref) (s : fz_stream) (x1 : pdf_xref),
      stages_in_declared_order load params num gen fs i0 chain xref = .ok s x1 →
      count_stages is_kind s = count_stages is_kind chain := by
  induction fs with
  | nil =>
    intro i0 chain xref s x1 h
    simp only [stages_in_declared_order] at h
    injection h with h1 _
    subst h1
    rfl
  | cons f rest ih =>
    intro i0 chain xref s x1 h
    simp only [stages_in_declared_order] at h
    cases hb : build_filter load chain xref (some f) (params i0) num gen with
    | ok c x =>
      rw [hb] at h
      simp only [fz_outcome.bind] at h
      rw [ih _ _ _ _ _ h]
      exact build_filter_count is_kind hk load chain xref (some f) (params i0) num gen c x hb
    | throw e x => rw [hb] at h; simp [fz_outcome.bind] at h
    | diverge => rw [hb] at h; simp [fz_outcome.bind] at h

/-- C9, as stated, fails: for a dictionary without a Filter entry and the
length argument 7, `pdf_open_inline_stream` returns the input wrapped in a
pass-through stage constrained to 7 bytes, a length-constraining stage. -/
theorem pdf_open_inline_stream_constrains_length :
    pdf_open_inline_stream (fun _ _ _ => .diverge) (.file 0) xref_empty (stream_dict []) 7
      = .ok (.null (.file 0) 7)
          { xref_empty with trace := [.keep (.file 0), .opened (.null (.file 0) 7)] } ∧
    is_null (.null (.file 0) 7) = true ∧
    count_stages is_null (.null (.file 0) 7) = 1 ∧
    count_stages is_null (.file 0) = 0 :=
  ⟨rfl, rfl, rfl, rfl⟩

/-- C9, amended: the chain `pdf_open_inline_stream` returns never has a
document-wide decrypt stage added to the input.  When the filter entry is a
name, or a sequence with at least one element, the call is the stage building
of that name, or of those names in declared order, with object id 0/0, and the
returned chain has no length-constraining stage added.  When the entry is
neither, the call returns the input wrapped in one pass-through stage
constrained to the length argument. -/
theorem pdf_open_inline_stream_spec (load : pdf_xref → Int → Int → fz_outcome fz_buffer)
    (chain : fz_stream) (xref : pdf_xref) (stmobj : Option fz_obj) (length : Int) :
    (∀ s x1, pdf_open_inline_stream load chain xref stmobj length = .ok s x1 →
      count_stages is_crypt s = count_stages is_crypt chain) ∧
    (∀ n, fz_dict_getsa stmobj "Filter" "F" = some (.name n) →
      pdf_open_inline_stream load chain xref stmobj length
        = build_filter load chain (fz_keep_stream chain xref) (some (.name n))
            (fz_dict_getsa stmobj "DecodeParms" "DP") 0 0 ∧
      ∀ s x1, pdf_open_inline_stream load chain xref stmobj length = .ok s x1 →
        count_stages is_null s = count_stages is_null chain) ∧
    (∀ f fs, fz_dict_getsa stmobj "Filter" "F" = some (.array (f :: fs)) →
      pdf_open_inline_stream load chain xref stmobj length
        = stages_in_declared_order load (params_at (fz_dict_getsa stmobj "DecodeParms" "DP"))
            0 0 (f :: fs) 0 chain (fz_keep_stream chain xref) ∧
      ∀ s x1, pdf_open_inline_stream load chain xref stmobj length = .ok s x1 →
        count_stages is_null s = count_stages is_null chain) ∧
    (fz_is_name (fz_dict_getsa stmobj "Filter" "F") = false →
      fz_array_len (fz_dict_getsa stmobj "Filter" "F") = 0 →
      pdf_open_inline_stream load chain xref stmobj length
        = .ok (.null chain length)
            (emit (.opened (.null chain length)) (fz_keep_stream chain xref))) := by
  have hname : ∀ n, fz_dict_getsa stmobj "Filter" "F" = some (.name n) →
      pdf_open_inline_stream load chain xref stmobj length
        = build_filter load chain (fz_keep_stream chain xref) (some (.name n))
            (fz_dict_getsa stmobj "DecodeParms" "DP") 0 0 := by
    intro n hn
    simp [pdf_open_inline_stream, hn, fz_is_name]
  have harr : ∀ f fs, fz_dict_getsa stmobj "Filter" "F" = some (.array (f :: fs)) →
      pdf_open_inline_stream load chain xref stmobj length
        = stages_in_declared_order load (params_at (fz_dict_getsa stmobj "DecodeParms" "DP"))
            0 0 (f :: fs) 0 chain (fz_keep_stream chain xref) := by
    intro f fs hf
    have h1 := build_filter_chain_eq load (fz_dict_getsa stmobj "DecodeParms" "DP") 0 0
      (f :: fs) chain (fz_keep_stream chain xref)
    rw [fz_array_get_eq_params_at] at h1
    simp [pdf_open_inline_stream, hf, fz_is_name, fz_array_len, h1]
  have hnone : fz_is_name (fz_dict_getsa stmobj "Filter" "F") = false →
      fz_array_len (fz_dict_getsa stmobj "Filter" "F") = 0 →
      pdf_open_inline_stream load chain xref stmobj length
        = .ok (.null chain length)
            (emit (.opened (.null chain length)) (fz_keep_stream chain xref)) := by
    intro h1 h2
    simp [pdf_open_inline_stream, h1, h2, fz_open_null, opened]
  have hcount : ∀ (is_kind : fz_stream → Bool),
      (∀ t, is_kind t = true → is_null t = true ∨ is_crypt t = true) →
      ∀ s x1, pdf_open_inline_stream load chain xref stmobj length = .ok s x1 →
      (fz_is_name (fz_dict_getsa stmobj "Filter" "F") = true ∨
        fz_array_len (fz_dict_getsa stmobj "Filter" "F") > 0) →
      count_stages is_kind s = count_stages is_kind chain := by
    intro is_kind hk s x1 h hcase
    cases hfe : fz_dict_getsa stmobj "Filter" "F" with
    | none => rw [hfe] at hcase; simp [fz_is_name, fz_array_len] at hcase
    | some o =>
      cases o with
      | name n =>
        rw [hname n hfe] at h
        exact build_filter_count is_kind hk load chain _ _ _ 0 0 s x1 h
      | array items =>
        cases items with
        | nil => rw [hfe] at hcase; simp [fz_is_name, fz_array_len] at hcase
        | cons f fs =>
          rw [harr f fs hfe] at h
          exact stages_count is_kind hk load _ 0 0 (f :: fs) 0 chain _ s x1 h
      | null => rw [hfe] at hcase; simp [fz_is_name, fz_array_len] at hcase
      | bool b => rw [hfe] at hcase; simp [fz_is_name, fz_array_len] at hcase
      | int i => rw [hfe] at hcase; simp [fz_is_name, fz_array_len] at hcase
      | string s => rw [hfe] at hcase; simp [fz_is_name, fz_array_len] at hcase
      | dict d => rw [hfe] at hcase; simp [fz_is_name, fz_array_len] at hcase
      | indirect n g => rw [hfe] at hcase; simp [fz_is_name, fz_array_len] at hcase
  refine ⟨?_, ?_, ?_, hnone⟩
  · intro s x1 h
    by_cases hcase : fz_is_name (fz_dict_getsa stmobj "Filter" "F") = true ∨
        fz_array_len (fz_dict_getsa stmobj "Filter" "F") > 0
    · exact hcount is_crypt (fun t ht => Or.inr ht) s x1 h hcase
    · have h1 : fz_is_name (fz_dict_getsa stmobj "Filter" "F") = false := by
        cases hb : fz_is_name (fz_dict_getsa stmobj "Filter" "F") with
        | false => rfl
        | true => exact absurd (Or.inl hb) hcase
      have h2 : fz_array_len (fz_dict_getsa stmobj "Filter" "F") = 0 := by
        by_contra hne
        exact hcase (Or.inr (Nat.pos_of_ne_zero hne))
      rw [hnone h1 h2] at h
      injection h with h3 _
      subst h3
      simp [count_stages, is_crypt]
  · intro n hn
    refine ⟨hname n hn, ?_⟩
    intro s x1 h
    exact hcount is_null (fun t ht => Or.inl ht) s x1 h (Or.inl (by simp [hn, fz_is_name]))
  · intro f fs hf
    refine ⟨harr f fs hf, ?_⟩
    intro s x1 h
    exact hcount is_null (fun t ht => Or.inl ht) s x1 h (Or.inr (by simp [hf, fz_array_len]))

/-- C9, amended, at the inline dictionary with Filter AHx (one hex stage with
nothing else added) and at the dictionary without filters (one pass-through
stage of the given length). -/
theorem pdf_open_inline_stream_spec_witness :
    (fz_dict_getsa (stream_dict [("Filter", .name "AHx")]) "Filter" "F" = some (.name "AHx") ∧
      pdf_open_inline_stream (fun _ _ _ => .diverge) (.file 0) xref_encrypted
          (stream_dict [("Filter", .name "AHx")]) 7
        = build_filter (fun _ _ _ => .diverge) (.file 0)
            (fz_keep_stream (.file 0) xref_encrypted) (some (.name "AHx"))
            (fz_dict_getsa (stream_dict [("Filter", .name "AHx")]) "DecodeParms" "DP") 0 0 ∧
      pdf_open_inline_stream (fun _ _ _ => .diverge) (.file 0) xref_encrypted
          (stream_dict [("Filter", .name "AHx")]) 7
        = .ok (.ahxd (.file 0))
            { xref_encrypted with trace := [.keep (.file 0), .opened (.ahxd (.file 0))] } ∧
      count_stages is_null (.ahxd (.file 0)) = count_stages is_null (.file 0) ∧
      count_stages is_crypt (.ahxd (.file 0)) = count_stages is_crypt (.file 0)) ∧
    ((fz_is_name (fz_dict_getsa (stream_dict []) "Filter" "F") = false ∧
        fz_array_len (fz_dict_getsa (stream_dict []) "Filter" "F") = 0) ∧
      pdf_open_inline_stream (fun _ _ _ => .diverge) (.file 0) xref_encrypted (stream_dict []) 7
        = .ok (.null (.file 0) 7)
            (emit (.opened (.null (.file 0) 7)) (fz_keep_stream (.file 0) xref_encrypted))) :=
  ⟨⟨rfl,
    ((pdf_open_inline_stream_spec (fun _ _ _ => .diverge) (.file 0) xref_encrypted
      (stream_dict [("Filter", .name "AHx")]) 7).2.1 "AHx" rfl).1,
    rfl,
    ((pdf_open_inline_stream_spec (fun _ _ _ => .diverge) (.file 0) xref_encrypted
      (stream_dict [("Filter", .name "AHx")]) 7).2.1 "AHx" rfl).2 _ _ rfl,
    (pdf_open_inline_stream_spec (fun _ _ _ => .diverge) (.file 0) xref_encrypted
      (stream_dict [("Filter", .name "AHx")]) 7).1 _ _ rfl⟩,
   ⟨⟨rfl, rfl⟩,
    (pdf_open_inline_stream_spec (fun _ _ _ => .diverge) (.file 0) xref_encrypted
      (stream_dict []) 7).2.2.2 rfl rfl⟩⟩

/-- C10, as stated, fails: with the filter JBIG2Decode and a parameter map
whose JBIG2Globals names object 5 of a document of two objects, loading the
globals throws the out-of-range error and `build_filter` throws it on. -/
theorem build_filter_throws_on_globals :
    fz_dict_gets (stream_dict [("JBIG2Globals", .indirect 5 0)]) "JBIG2Globals"
      = some (.indirect 5 0) ∧
    pdf_load_stream env_quiet 1 xref_two 5 0 = .throw (.object_out_of_range 5 0) xref_two ∧
    build_filter (pdf_load_stream env_quiet 1) (.file 0) xref_two (some (.name "JBIG2Decode"))
        (stream_dict [("JBIG2Globals", .indirect 5 0)]) 7 0
      = .throw (.object_out_of_range 5 0) xref_two ∧
    build_filter (pdf_load_stream env_quiet 2) (.file 0) xref_two (some (.name "JBIG2Decode"))
        (stream_dict [("JBIG2Globals", .indirect 5 0)]) 7 0
      = .throw (.object_out_of_range 5 0) xref_two :=
  ⟨rfl, rfl, rfl, rfl⟩

/-- C10, amended: `build_filter` raises no error of its own.  For every filter
other than JBIG2Decode with a JBIG2Globals entry it returns a stream: the
input itself, or one or two new stages wrapping the input.  For JBIG2Decode
with a JBIG2Globals entry it is the load of the globals stream piped into the
JBIG2 stage over the input: it returns that stage when the load returns a
buffer, and throws the error of the load when the load throws. -/
theorem build_filter_fails_only_on_globals
    (load : pdf_xref → Int → Int → fz_outcome fz_buffer)
    (chain : fz_stream) (xref : pdf_xref) (f p : Option fz_obj) (num gen : Int) :
    ((fz_to_name f = "JBIG2Decode" → fz_dict_gets p "JBIG2Globals" = none) →
      ∃ s x1, build_filter load chain xref f p num gen = .ok s x1 ∧
        is_input_or_wraps chain s) ∧
    (∀ o, fz_to_name f = "JBIG2Decode" → fz_dict_gets p "JBIG2Globals" = some o →
      build_filter load chain xref f p num gen
        = (load xref (fz_to_num (some o)) (fz_to_gen (some o))).bind
            (fun globals x1 => .ok (.jbig2d chain (some globals))
              (emit (.opened (.jbig2d chain (some globals))) x1))) := by
  refine build_filter_cases load chain xref f p num gen
    (fun n r =>
      ((n = "JBIG2Decode" → fz_dict_gets p "JBIG2Globals" = none) →
        ∃ s x1, r = .ok s x1 ∧ is_input_or_wraps chain s) ∧
      (∀ o, n = "JBIG2Decode" → fz_dict_gets p "JBIG2Globals" = some o →
        r = (load xref (fz_to_num (some o)) (fz_to_gen (some o))).bind
              (fun globals x1 => .ok (.jbig2d chain (some globals))
                (emit (.opened (.jbig2d chain (some globals))) x1))))
    ?_ ?_ ?_ ?_ ?_ ?_ ?_ ?_ ?_ ?_ ?_ ?_ ?_ ?_ ?_ ?_ ?_ ?_ ?_
  · intro n hn
    refine ⟨fun _ => ⟨_, _, rfl, Or.inr (Or.inl rfl)⟩, ?_⟩
    intro o ho; rcases hn with hn | hn <;> rw [hn] at ho <;> exact absurd ho (by decide)
  · intro n hn
    refine ⟨fun _ => ⟨_, _, rfl, Or.inr (Or.inl rfl)⟩, ?_⟩
    intro o ho; rcases hn with hn | hn <;> rw [hn] at ho <;> exact absurd ho (by decide)
  · intro n hn
    refine ⟨fun _ => ⟨_, _, rfl, Or.inr (Or.inl rfl)⟩, ?_⟩
    intro o ho; rcases hn with hn | hn <;> rw [hn] at ho <;> exact absurd ho (by decide)
  · intro n hn
    refine ⟨fun _ => ⟨_, _, rfl, Or.inr (Or.inl rfl)⟩, ?_⟩
    intro o ho; rcases hn with hn | hn <;> rw [hn] at ho <;> exact absurd ho (by decide)
  · intro n hn
    refine ⟨fun _ => ⟨_, _, rfl, Or.inr (Or.inl rfl)⟩, ?_⟩
    intro o ho; rcases hn with hn | hn <;> rw [hn] at ho <;> exact absurd ho (by decide)
  · intro n hn _
    refine ⟨fun _ => ⟨_, _, rfl, Or.inr (Or.inr rfl)⟩, ?_⟩
    intro o ho; rcases hn with hn | hn <;> rw [hn] at ho <;> exact absurd ho (by decide)
  · intro n hn _
    refine ⟨fun _ => ⟨_, _, rfl, Or.inr (Or.inl rfl)⟩, ?_⟩
    intro o ho; rcases hn with hn | hn <;> rw [hn] at ho <;> exact absurd ho (by decide)
  · intro n hn _
    refine ⟨fun _ => ⟨_, _, rfl, Or.inr (Or.inr rfl)⟩, ?_⟩
    intro o ho; rcases hn with hn | hn <;> rw [hn] at ho <;> exact absurd ho (by decide)
  · intro n hn _
    refine ⟨fun _ => ⟨_, _, rfl, Or.inr (Or.inl rfl)⟩, ?_⟩
    intro o ho; rcases hn with hn | hn <;> rw [hn] at ho <;> exact absurd ho (by decide)
  · intro n hn o ho g x1 hl
    refine ⟨fun hg => ?_, ?_⟩
    · rw [hg hn] at ho; cases ho
    · intro o2 _ ho2
      rw [ho] at ho2
      injection ho2 with ho2
      subst ho2
      rw [hl]
      rfl
  · intro n hn o ho e x1 hl
    refine ⟨fun hg => ?_, ?_⟩
    · rw [hg hn] at ho; cases ho
    · intro o2 _ ho2
      rw [ho] at ho2
      injection ho2 with ho2
      subst ho2
      rw [hl]
      rfl
  · intro n hn o ho hl
    refine ⟨fun hg => ?_, ?_⟩
    · rw [hg hn] at ho; cases ho
    · intro o2 _ ho2
      rw [ho] at ho2
      injection ho2 with ho2
      subst ho2
      rw [hl]
      rfl
  · intro n hn hg
    refine ⟨fun _ => ⟨_, _, rfl, Or.inr (Or.inl rfl)⟩, ?_⟩
    intro o _ ho; rw [hg] at ho; cases ho
  · intro n hn
    refine ⟨fun _ => ⟨_, _, rfl, Or.inl rfl⟩, ?_⟩
    intro o ho; rw [hn] at ho; exact absurd ho (by decide)
  · intro n hn _
    refine ⟨fun _ => ⟨_, _, rfl, Or.inl rfl⟩, ?_⟩
    intro o ho; rw [hn] at ho; exact absurd ho (by decide)
  · intro n hn cr _ _ ctx _
    refine ⟨fun _ => ⟨_, _, rfl, Or.inr (Or.inl rfl)⟩, ?_⟩
    intro o ho; rw [hn] at ho; exact absurd ho (by decide)
  · intro n hn cr _ _ _
    refine ⟨fun _ => ⟨_, _, rfl, Or.inl rfl⟩, ?_⟩
    intro o ho; rw [hn] at ho; exact absurd ho (by decide)
  · intro n hn cr _ _
    refine ⟨fun _ => ⟨_, _, rfl, Or.inl rfl⟩, ?_⟩
    intro o ho; rw [hn] at ho; exact absurd ho (by decide)
  · intro n _ _ _ _ _ _ _ h8 _ _
    refine ⟨fun _ => ⟨_, _, rfl, Or.inl rfl⟩, ?_⟩
    intro o ho; exact absurd ho h8

/-- C10, amended, at JPXDecode (the input is returned) and at JBIG2Decode
whose JBIG2Globals names object 1, a stream of the document: the globals are
loaded and the JBIG2 stage is returned. -/
theorem build_filter_fails_only_on_globals_witness :
    ((fz_to_name (some (.name "JPXDecode")) = "JBIG2Decode" →
        fz_dict_gets none "JBIG2Globals" = none) ∧
      ∃ s x1, build_filter (pdf_load_stream env_quiet 1) (.file 0) xref_two
          (some (.name "JPXDecode")) none 7 0 = .ok s x1 ∧ is_input_or_wraps (.file 0) s) ∧
    ((fz_to_name (some (.name "JBIG2Decode")) = "JBIG2Decode" ∧
        fz_dict_gets (stream_dict [("JBIG2Globals", .indirect 1 0)]) "JBIG2Globals"
          = some (.indirect 1 0)) ∧
      build_filter (pdf_load_stream env_quiet 1) (.file 0) xref_two (some (.name "JBIG2Decode"))
          (stream_dict [("JBIG2Globals", .indirect 1 0)]) 7 0
        = (pdf_load_stream env_quiet 1 xref_two (fz_to_num (some (.indirect 1 0)))
            (fz_to_gen (some (.indirect 1 0)))).bind
            (fun globals x1 => .ok (.jbig2d (.file 0) (some globals))
              (emit (.opened (.jbig2d (.file 0) (some globals))) x1)) ∧
      ∃ x1, build_filter (pdf_load_stream env_quiet 1) (.file 0) xref_two
          (some (.name "JBIG2Decode")) (stream_dict [("JBIG2Globals", .indirect 1 0)]) 7 0
        = .ok (.jbig2d (.file 0) (some { data := [] })) x1) :=
  ⟨⟨fun _ => rfl,
    (build_filter_fails_only_on_globals (pdf_load_stream env_quiet 1) (.file 0) xref_two
      (some (.name "JPXDecode")) none 7 0).1 (fun _ => rfl)⟩,
   ⟨⟨rfl, rfl⟩,
    (build_filter_fails_only_on_globals (pdf_load_stream env_quiet 1) (.file 0) xref_two
      (some (.name "JBIG2Decode")) (stream_dict [("JBIG2Globals", .indirect 1 0)]) 7 0).2
      (.indirect 1 0) rfl rfl,
    ⟨_, rfl⟩⟩⟩

theorem emit_crypt (ev : fz_event) (x : pdf_xref) : (emit ev x).crypt = x.crypt := rfl

theorem env_file_reads_null_stage : reads_null_stage env_file := by
  intro fd len cap x _
  exact ⟨_, rfl⟩

/-- C12: for an unencrypted document and a stream object, in range and
cached, with a declared non-negative Length `L` and payload offset `ofs`,
`pdf_load_raw_stream` returns a buffer equal to the first `L` bytes of the file
from `ofs` on, or to all remaining bytes when fewer than `L` remain: never more
than `L` bytes, and exactly `L` when `L` are available. -/
theorem pdf_load_raw_stream_bytes (env : fz_env) (xref : pdf_xref) (num gen : Int) (fd : Nat)
    (L : Int) (hread : reads_null_stage env) (hfile : xref.file = .file fd)
    (hcrypt : xref.crypt = none) (hr : ¬ (num < 0 ∨ num ≥ xref.len))
    (hc : env.pdf_cache_object xref num gen = .ok () xref)
    (hofs : 0 < (table_entry xref num).stm_ofs)
    (hlen : fz_dict_gets (table_entry xref num).obj "Length" = some (.int L)) (hL : 0 ≤ L) :
    ∃ buf x1, pdf_load_raw_stream env xref num gen = .ok buf x1 ∧
      buf.data = (xref.file_data.drop (table_entry xref num).stm_ofs.toNat).take L.toNat ∧
      (buf.data.length : Int) ≤ L ∧
      ((table_entry xref num).stm_ofs.toNat + L.toNat ≤ xref.file_data.length →
        buf.data.length = L.toNat) ∧
      (xref.file_data.length ≤ (table_entry xref num).stm_ofs.toNat + L.toNat →
        buf.data = xref.file_data.drop (table_entry xref num).stm_ofs.toNat) := by
  have hne : (table_entry xref num).stm_ofs ≠ 0 := by omega
  obtain ⟨x1, hx1⟩ := hread fd L L
    (fz_seek (table_entry xref num).stm_ofs
      (emit (.opened (.null (.file fd) L)) (emit (.keep (.file fd)) xref))) hfile
  refine ⟨read_null_stage (fz_seek (table_entry xref num).stm_ofs
      (emit (.opened (.null (.file fd) L)) (emit (.keep (.file fd)) xref))) L,
    fz_close (.null (.file fd) L) x1, ?_, ?_, ?_, ?_, ?_⟩
  · unfold pdf_load_raw_stream pdf_load_object
    rw [hc]
    simp only
    unfold pdf_open_raw_stream
    rw [if_neg hr, hc]
    simp only [if_neg hne]
    unfold pdf_open_raw_filter
    simp only [fz_open_null, opened, fz_keep_stream, emit_crypt, hcrypt, hlen, fz_to_int, hfile]
    have ht : ∀ ev1 ev2, table_entry (emit ev1 (emit ev2 xref)) num = table_entry xref num :=
      fun _ _ => rfl
    rw [ht, hx1]
  · rfl
  · have h1 : (read_null_stage (fz_seek (table_entry xref num).stm_ofs
        (emit (.opened (.null (.file fd) L)) (emit (.keep (.file fd)) xref))) L).data.length
        ≤ L.toNat := by
      simp [read_null_stage]
    have h2 : (L.toNat : Int) = L := Int.toNat_of_nonneg hL
    omega
  · intro h
    simp only [read_null_stage, fz_seek, emit, List.length_take, List.length_drop]
    omega
  · intro h
    simp only [read_null_stage, fz_seek, emit]
    apply List.take_of_length_le
    simp only [List.length_drop]
    omega

/-- C12 at a file of 200 bytes: the stream with Length 50 at offset 100 loads
as exactly the 50 bytes 100..149, and the stream with Length 50 at offset 180
as the 20 bytes that remain. -/
theorem pdf_load_raw_stream_bytes_witness :
    ((reads_null_stage env_file ∧ xref_bytes.file = .file 0 ∧ xref_bytes.crypt = none ∧
        ¬ ((1 : Int) < 0 ∨ (1 : Int) ≥ xref_bytes.len) ∧
        env_file.pdf_cache_object xref_bytes 1 0 = .ok () xref_bytes ∧
        0 < (table_entry xref_bytes 1).stm_ofs ∧
        fz_dict_gets (table_entry xref_bytes 1).obj "Length" = some (.int 50) ∧
        (0 : Int) ≤ 50) ∧
      ∃ buf x1, pdf_load_raw_stream env_file xref_bytes 1 0 = .ok buf x1 ∧
        buf.data = (xref_bytes.file_data.drop (table_entry xref_bytes 1).stm_ofs.toNat).take
          (50 : Int).toNat ∧
        (buf.data.length : Int) ≤ 50 ∧
        ((table_entry xref_bytes 1).stm_ofs.toNat + (50 : Int).toNat
            ≤ xref_bytes.file_data.length →
          buf.data.length = (50 : Int).toNat) ∧
        (xref_bytes.file_data.length
            ≤ (table_entry xref_bytes 1).stm_ofs.toNat + (50 : Int).toNat →
          buf.data = xref_bytes.file_data.drop (table_entry xref_bytes 1).stm_ofs.toNat)) ∧
    (∃ x1, pdf_load_raw_stream env_file xref_bytes 1 0
      = .ok { data := List.range' 100 50 } x1) ∧
    (∃ x1, pdf_load_raw_stream env_file xref_bytes 2 0
      = .ok { data := List.range' 180 20 } x1) :=
  ⟨⟨⟨env_file_reads_null_stage, rfl, rfl, by decide, rfl, by decide, rfl, by decide⟩,
    pdf_load_raw_stream_bytes env_file xref_bytes 1 0 0 50 env_file_reads_null_stage rfl rfl
      (by decide) rfl (by decide) rfl (by decide)⟩,
   ⟨_, rfl⟩, ⟨_, rfl⟩⟩

/-- C13 fails on the code: `pdf_guess_filter_length` compares the name with the
canonical spellings only, so an abbreviated spelling gets no correction.  At
the declared length 1000 it returns 1000 for AHx, A85, Fl, RL and LZW, against
500, 800, 3000, 3000 and 2000 for the canonical names; for every length an
abbreviated name leaves the length unchanged. -/
theorem pdf_guess_filter_length_abbreviated :
    (∀ len : Int, pdf_guess_filter_length len "AHx" = len ∧
      pdf_guess_filter_length len "A85" = len ∧ pdf_guess_filter_length len "Fl" = len ∧
      pdf_guess_filter_length len "RL" = len ∧ pdf_guess_filter_length len "LZW" = len) ∧
    (pdf_guess_filter_length 1000 "AHx" = 1000 ∧
      pdf_guess_filter_length 1000 "ASCIIHexDecode" = 500) ∧
    (pdf_guess_filter_length 1000 "A85" = 1000 ∧
      pdf_guess_filter_length 1000 "ASCII85Decode" = 800) ∧
    (pdf_guess_filter_length 1000 "Fl" = 1000 ∧
      pdf_guess_filter_length 1000 "FlateDecode" = 3000) ∧
    (pdf_guess_filter_length 1000 "RL" = 1000 ∧
      pdf_guess_filter_length 1000 "RunLengthDecode" = 3000) ∧
    (pdf_guess_filter_length 1000 "LZW" = 1000 ∧
      pdf_guess_filter_length 1000 "LZWDecode" = 2000) ∧
    pdf_load_stream_estimate (dict_with_filter 1000 (.name "Fl")) = 1000 ∧
    pdf_load_stream_estimate (dict_with_filter 1000 (.name "FlateDecode")) = 3000 := by
  refine ⟨fun len => ⟨rfl, rfl, rfl, rfl, rfl⟩, ⟨rfl, rfl⟩, ⟨rfl, rfl⟩, ⟨rfl, rfl⟩, ⟨rfl, rfl⟩,
    ⟨rfl, rfl⟩, rfl, rfl⟩

/-- C14 fails on the code: `pdf_load_stream` reads the filter names for the
estimate from the key Filter only, while `pdf_open_filter` reads Filter or its
alias F.  For a stream of declared length 1000 whose filter FlateDecode is
stored under F, the Flate stage is built but the estimate stays 1000; with the
same filter under Filter the estimate is 3000. -/
theorem pdf_load_stream_estimate_ignores_alias_key :
    fz_dict_getsa (dict_with_alias_filter 1000 (.name "FlateDecode")) "Filter" "F"
      = some (.name "FlateDecode") ∧
    fz_dict_gets (dict_with_alias_filter 1000 (.name "FlateDecode")) "Filter" = none ∧
    pdf_open_filter env_quiet (fun _ _ _ => .diverge) (.file 0) xref_empty
        (dict_with_alias_filter 1000 (.name "FlateDecode")) 7 0
      = .ok (.flated (.null (.file 0) 1000))
          { xref_empty with
            trace := [.keep (.file 0), .opened (.null (.file 0) 1000),
              .opened (.flated (.null (.file 0) 1000))] } ∧
    pdf_open_filter env_quiet (fun _ _ _ => .diverge) (.file 0) xref_empty
        (dict_with_filter 1000 (.name "FlateDecode")) 7 0
      = .ok (.flated (.null (.file 0) 1000))
          { xref_empty with
            trace := [.keep (.file 0), .opened (.null (.file 0) 1000),
              .opened (.flated (.null (.file 0) 1000))] } ∧
    pdf_load_stream_estimate (dict_with_alias_filter 1000 (.name "FlateDecode")) = 1000 ∧
    pdf_load_stream_estimate (dict_with_filter 1000 (.name "FlateDecode")) = 3000 ∧
    pdf_load_stream_estimate
      (dict_with_alias_filter 1000 (.array [.name "ASCIIHexDecode", .name "FlateDecode"])) = 1000 ∧
    pdf_load_stream_estimate
      (dict_with_filter 1000 (.array [.name "ASCIIHexDecode", .name "FlateDecode"])) = 1500 :=
  ⟨rfl, rfl, rfl, rfl, rfl, rfl, rfl, rfl⟩

/-- C15 fails on the code: `pdf_open_filter` has no handler around stage
building.  Opening object 1, a JBIG2 stream whose globals are the out-of-range
object 5, throws from the load of the globals with the length-constrained
stage constructed and not closed: the trace at the throw has one construction
and no closing, for `pdf_open_stream` and for `pdf_open_stream_at`.  The
handler of `pdf_open_raw_filter` does close: when the decrypt stage cannot be
built, the length-constrained stage is closed before the error is passed on. -/
theorem pdf_open_stream_leaves_stage_open :
    pdf_open_stream env_quiet (pdf_load_stream env_quiet 1) (xref_jbig2 5) 1 0
      = .throw (.object_out_of_range 5 0)
          { xref_jbig2 5 with trace := [.keep (.file 0), .opened (.null (.file 0) 10)] } ∧
    pdf_open_stream_at env_quiet (pdf_load_stream env_quiet 1) (xref_jbig2 5) 1 0
        (dict_jbig2 5) 100
      = .throw (.object_out_of_range 5 0)
          { xref_jbig2 5 with trace := [.keep (.file 0), .opened (.null (.file 0) 10)] } ∧
    ([fz_event.keep (.file 0), .opened (.null (.file 0) 10)].filter is_opened_event).length = 1 ∧
    ([fz_event.keep (.file 0), .opened (.null (.file 0) 10)].filter is_closed_event).length = 0 ∧
    pdf_open_raw_stream env_crypt_fails xref_two_encrypted 1 0
      = .throw (.other "cannot open crypt")
          { xref_two_encrypted with
            trace := [.keep (.file 0), .opened (.null (.file 0) 10),
              .closed (.null (.file 0) 10)] } ∧
    pdf_open_stream env_crypt_fails (pdf_load_stream env_crypt_fails 1) xref_two_encrypted 1 0
      = .throw (.other "cannot open crypt")
          { xref_two_encrypted with
            trace := [.keep (.file 0), .opened (.null (.file 0) 10),
              .closed (.null (.file 0) 10)] } :=
  ⟨rfl, rfl, rfl, rfl, rfl, rfl⟩

theorem built_on_trans (a b c : fz_stream) (h1 : built_on a b) (h2 : built_on b c) :
    built_on a c := by
  induction h2 with
  | base => exact h1
  | stage s c hs _ ih => exact .stage s c hs ih

theorem build_filter_built_on (load : pdf_xref → Int → Int → fz_outcome fz_buffer)
    (chain : fz_stream) (xref : pdf_xref) (f p : Option fz_obj) (num gen : Int)
    (s : fz_stream) (x1 : pdf_xref) (h : build_filter load chain xref f p num gen = .ok s x1) :
    built_on chain s := by
  revert h
  refine build_filter_cases load chain xref f p num gen
    (fun _ r => r = .ok s x1 → built_on chain s)
    ?_ ?_ ?_ ?_ ?_ ?_ ?_ ?_ ?_ ?_ ?_ ?_ ?_ ?_ ?_ ?_ ?_ ?_ ?_
  · intro n _ h; injection h with h1 _; subst h1; exact .stage _ _ rfl .base
  · intro n _ h; injection h with h1 _; subst h1; exact .stage _ _ rfl .base
  · intro n _ h; injection h with h1 _; subst h1; exact .stage _ _ rfl .base
  · intro n _ h; injection h with h1 _; subst h1; exact .stage _ _ rfl .base
  · intro n _ h; injection h with h1 _; subst h1; exact .stage _ _ rfl .base
  · intro n _ _ h; injection h with h1 _; subst h1
    exact .stage _ _ rfl (.stage _ _ rfl .base)
  · intro n _ _ h; injection h with h1 _; subst h1; exact .stage _ _ rfl .base
  · intro n _ _ h; injection h with h1 _; subst h1
    exact .stage _ _ rfl (.stage _ _ rfl .base)
  · intro n _ _ h; injection h with h1 _; subst h1; exact .stage _ _ rfl .base
  · intro n _ o _ g x2 _ h; injection h with h1 _; subst h1; exact .stage _ _ rfl .base
  · intro n _ o _ e x2 _ h; cases h
  · intro n _ o _ _ h; cases h
  · intro n _ _ h; injection h with h1 _; subst h1; exact .stage _ _ rfl .base
  · intro n _ h; injection h with h1 _; subst h1; exact .base
  · intro n _ _ h; injection h with h1 _; subst h1; exact .base
  · intro n _ cr _ _ ctx _ h; injection h with h1 _; subst h1; exact .stage _ _ rfl .base
  · intro n _ cr _ _ _ h; injection h with h1 _; subst h1; exact .base
  · intro n _ cr _ _ h; injection h with h1 _; subst h1; exact .base
  · intro n _ _ _ _ _ _ _ _ _ _ h; injection h with h1 _; subst h1; exact .base

theorem build_filter_chain_loop_built_on (load : pdf_xref → Int → Int → fz_outcome fz_buffer)
    (fs ps : Option fz_obj) (num gen : Int) (idx : List Nat) :
    ∀ (chain : fz_stream) (xref : pdf_xref) (s : fz_stream) (x1 : pdf_xref),
      build_filter_chain_loop load fs ps num gen idx chain xref = .ok s x1 →
      built_on chain s ∧ count_stages is_crypt s = count_stages is_crypt chain := by
  induction idx with
  | nil =>
    intro chain xref s x1 h
    simp only [build_filter_chain_loop] at h
    injection h with h1 _
    subst h1
    exact ⟨.base, rfl⟩
  | cons i rest ih =>
    intro chain xref s x1 h
    simp only [build_filter_chain_loop] at h
    cases hb : build_filter load chain xref (fz_array_get fs i) (fz_array_get ps i) num gen with
    | ok c x =>
      rw [hb] at h
      simp only at h
      obtain ⟨h1, h2⟩ := ih _ _ _ _ h
      refine ⟨built_on_trans _ _ _ (build_filter_built_on load chain xref _ _ num gen c x hb) h1,
        ?_⟩
      rw [h2]
      exact build_filter_count is_crypt (fun t ht => Or.inr ht) load chain xref _ _ num gen c x hb
    | throw e x => rw [hb] at h; simp at h
    | diverge => rw [hb] at h; simp at h

theorem pdf_open_raw_filter_shape (env : fz_env) (chain : fz_stream) (xref : pdf_xref)
    (stmobj : Option fz_obj) (num gen : Int) (s : fz_stream) (x1 : pdf_xref)
    (h : pdf_open_raw_filter env chain xref stmobj num gen = .ok s x1) :
    s = .null chain (fz_to_int (fz_dict_gets stmobj "Length")) ∨
      ∃ cr, s = .crypt (.null chain (fz_to_int (fz_dict_gets stmobj "Length"))) cr num gen := by
  unfold pdf_open_raw_filter at h
  simp only [fz_open_null, opened, fz_keep_stream, emit_crypt] at h
  cases hcr : xref.crypt with
  | none =>
    rw [hcr] at h
    injection h with h1 _
    exact Or.inl h1.symm
  | some cr =>
    rw [hcr] at h
    cases hh : pdf_stream_has_crypt stmobj with
    | true =>
      rw [hh] at h
      simp only [Bool.not_true, Bool.false_eq_true, if_false] at h
      injection h with h1 _
      exact Or.inl h1.symm
    | false =>
      rw [hh] at h
      simp only [Bool.not_false, if_true, pdf_open_crypt] at h
      cases he : env.pdf_open_crypt_error cr num gen with
      | some e => rw [he] at h; simp at h
      | none =>
        rw [he] at h
        simp only at h
        injection h with h1 _
        exact Or.inr ⟨cr, h1.symm⟩

/-- C16: a chain `pdf_open_raw_filter` returns is the length-constrained
pass-through stage over the input, or the document-wide decrypt stage placed
directly on that stage.  A chain `pdf_open_filter` returns is such a raw chain
with the stages built from the filter entry wrapped around it, none of them a
document-wide decrypt stage: between the decrypt stage and the input there is
the length-constrained stage and no filter stage. -/
theorem decrypt_stage_innermost (env : fz_env)
    (load : pdf_xref → Int → Int → fz_outcome fz_buffer) (chain : fz_stream) (xref : pdf_xref)
    (stmobj : Option fz_obj) (num gen : Int) :
    (∀ s x1, pdf_open_raw_filter env chain xref stmobj num gen = .ok s x1 →
      s = .null chain (fz_to_int (fz_dict_gets stmobj "Length")) ∨
        ∃ cr, s = .crypt (.null chain (fz_to_int (fz_dict_gets stmobj "Length"))) cr num gen) ∧
    (∀ s x1, pdf_open_filter env load chain xref stmobj num gen = .ok s x1 →
      ∃ raw, (raw = .null chain (fz_to_int (fz_dict_gets stmobj "Length")) ∨
          ∃ cr, raw = .crypt (.null chain (fz_to_int (fz_dict_gets stmobj "Length")))
            cr num gen) ∧
        built_on raw s ∧ count_stages is_crypt s = count_stages is_crypt raw) := by
  refine ⟨pdf_open_raw_filter_shape env chain xref stmobj num gen, ?_⟩
  intro s x1 h
  unfold pdf_open_filter at h
  cases hr : pdf_open_raw_filter env chain xref stmobj num gen with
  | ok raw x0 =>
    rw [hr] at h
    simp only at h
    refine ⟨raw, pdf_open_raw_filter_shape env chain xref stmobj num gen raw x0 hr, ?_⟩
    split_ifs at h with h1 h2
    · exact ⟨build_filter_built_on load raw x0 _ _ num gen s x1 h,
        build_filter_count is_crypt (fun t ht => Or.inr ht) load raw x0 _ _ num gen s x1 h⟩
    · exact build_filter_chain_loop_built_on load _ _ num gen _ raw x0 s x1 h
    · injection h with h3 _
      subst h3
      exact ⟨.base, rfl⟩
  | throw e x0 => rw [hr] at h; simp at h
  | diverge => rw [hr] at h; simp at h

/-- C16 at a stream of an encrypted document with the filters [AHx, Fl],
object 7 0: the Flate stage wraps the hex stage, which wraps the decrypt stage
for 7 0, which wraps the length-constrained stage over the file. -/
theorem decrypt_stage_innermost_witness :
    pdf_open_filter env_quiet (fun _ _ _ => .diverge) (.file 0) xref_encrypted
        (dict_with_filter 10 (.array [.name "AHx", .name "Fl"])) 7 0
      = .ok (.flated (.ahxd (.crypt (.null (.file 0) 10) { key := [1] } 7 0)))
          { xref_encrypted with
            trace := [.keep (.file 0), .opened (.null (.file 0) 10),
              .opened (.crypt (.null (.file 0) 10) { key := [1] } 7 0),
              .opened (.ahxd (.crypt (.null (.file 0) 10) { key := [1] } 7 0)),
              .opened (.flated (.ahxd (.crypt (.null (.file 0) 10) { key := [1] } 7 0)))] } ∧
    ∃ raw, (raw = .null (.file 0)
          (fz_to_int (fz_dict_gets (dict_with_filter 10 (.array [.name "AHx", .name "Fl"]))
            "Length")) ∨
        ∃ cr, raw = .crypt (.null (.file 0)
          (fz_to_int (fz_dict_gets (dict_with_filter 10 (.array [.name "AHx", .name "Fl"]))
            "Length"))) cr 7 0) ∧
      built_on raw (.flated (.ahxd (.crypt (.null (.file 0) 10) { key := [1] } 7 0))) ∧
      count_stages is_crypt (.flated (.ahxd (.crypt (.null (.file 0) 10) { key := [1] } 7 0)))
        = count_stages is_crypt raw :=
  ⟨rfl,
   (decrypt_stage_innermost env_quiet (fun _ _ _ => .diverge) (.file 0) xref_encrypted
      (dict_with_filter 10 (.array [.name "AHx", .name "Fl"])) 7 0).2 _ _ rfl⟩

theorem fz_seek_last (ofs : Int) (x : pdf_xref) :
    (fz_seek ofs x).file_pos = ofs ∧ (fz_seek ofs x).trace.getLast? = some (.seek ofs) ∧
      ∀ num, table_entry (fz_seek ofs x) num = table_entry x num := by
  refine ⟨rfl, ?_, fun _ => rfl⟩
  simp [fz_seek, emit]

/-- C17: on every successful return of `pdf_open_raw_stream`,
`pdf_open_stream` or `pdf_open_stream_at` the seek to the stream's payload
offset is the last effect of the call and the file position equals that
offset (the offset of the table entry for the first two, the given offset for
the third), whatever stage construction did to the file before. -/
theorem seek_is_last_step (env : fz_env) (load : pdf_xref → Int → Int → fz_outcome fz_buffer)
    (xref : pdf_xref) (num gen : Int) (dict : Option fz_obj) (ofs : Int) :
    (∀ stm x1, pdf_open_raw_stream env xref num gen = .ok stm x1 →
      x1.file_pos = (table_entry x1 num).stm_ofs ∧
      x1.trace.getLast? = some (.seek (table_entry x1 num).stm_ofs)) ∧
    (∀ stm x1, pdf_open_stream env load xref num gen = .ok stm x1 →
      x1.file_pos = (table_entry x1 num).stm_ofs ∧
      x1.trace.getLast? = some (.seek (table_entry x1 num).stm_ofs)) ∧
    (∀ stm x1, pdf_open_stream_at env load xref num gen dict ofs = .ok stm x1 →
      x1.file_pos = ofs ∧ x1.trace.getLast? = some (.seek ofs)) := by
  refine ⟨?_, ?_, ?_⟩
  · intro stm x1 h
    unfold pdf_open_raw_stream at h
    split_ifs at h with h1
    cases hc : env.pdf_cache_object xref num gen with
    | ok u x0 =>
      rw [hc] at h
      simp only at h
      split_ifs at h with h2
      cases hf : pdf_open_raw_filter env x0.file x0 (table_entry x0 num).obj num gen with
      | ok s x2 =>
        rw [hf] at h
        simp only at h
        injection h with _ h4
        subst h4
        obtain ⟨ha, hb, hcc⟩ := fz_seek_last (table_entry x2 num).stm_ofs x2
        rw [hcc num]
        exact ⟨ha, hb⟩
      | throw e x2 => rw [hf] at h; simp at h
      | diverge => rw [hf] at h; simp at h
    | throw e x0 => rw [hc] at h; simp at h
    | diverge => rw [hc] at h; simp at h
  · intro stm x1 h
    unfold pdf_open_stream at h
    split_ifs at h with h1
    cases hc : env.pdf_cache_object xref num gen with
    | ok u x0 =>
      rw [hc] at h
      simp only at h
      split_ifs at h with h2
      cases hf : pdf_open_filter env load x0.file x0 (table_entry x0 num).obj num gen with
      | ok s x2 =>
        rw [hf] at h
        simp only at h
        injection h with _ h4
        subst h4
        obtain ⟨ha, hb, hcc⟩ := fz_seek_last (table_entry x2 num).stm_ofs x2
        rw [hcc num]
        exact ⟨ha, hb⟩
      | throw e x2 => rw [hf] at h; simp at h
      | diverge => rw [hf] at h; simp at h
    | throw e x0 => rw [hc] at h; simp at h
    | diverge => rw [hc] at h; simp at h
  · intro stm x1 h
    unfold pdf_open_stream_at at h
    split_ifs at h with h1
    cases hf : pdf_open_filter env load xref.file xref dict num gen with
    | ok s x2 =>
      rw [hf] at h
      simp only at h
      injection h with _ h4
      subst h4
      obtain ⟨ha, hb, _⟩ := fz_seek_last ofs x2
      exact ⟨ha, hb⟩
    | throw e x2 => rw [hf] at h; simp at h
    | diverge => rw [hf] at h; simp at h

/-- C17 at object 1 of a document whose object 1 is a JBIG2 stream at offset
100 with globals in object 1 itself, loaded by a `pdf_load_stream` that leaves
the file at position 999: on return the file is at 100 and the seek is the
last effect. -/
theorem seek_is_last_step_witness :
    pdf_open_stream env_quiet (fun x _ _ => .ok { data := [] } { x with file_pos := 999 })
        (xref_jbig2 1) 1 0
      = .ok (.jbig2d (.null (.file 0) 10) (some { data := [] })) xref_jbig2_opened ∧
    xref_jbig2_opened.file_pos = (table_entry xref_jbig2_opened 1).stm_ofs ∧
    xref_jbig2_opened.trace.getLast?
      = some (.seek (table_entry xref_jbig2_opened 1).stm_ofs) :=
  ⟨rfl,
   (seek_is_last_step env_quiet (fun x _ _ => .ok { data := [] } { x with file_pos := 999 })
      (xref_jbig2 1) 1 0 none 0).2.1 _ _ rfl⟩

/-- C18, as stated, fails in its last part: with the filter Crypt, a cipher
context and the name-valued Name `StdCF`, which the cipher context does not
resolve, `build_filter` returns the input itself and constructs no decrypt
stage. -/
theorem build_filter_crypt_unresolved_alias :
    fz_to_name (some (.name "Crypt")) = "Crypt" ∧
    xref_encrypted.crypt = some { key := [1] } ∧
    fz_dict_gets (stream_dict [("Name", .name "StdCF")]) "Name" = some (.name "StdCF") ∧
    resolve_key_alias { key := [1] } "StdCF" = none ∧
    build_filter (fun _ _ _ => .diverge) (.file 0) xref_encrypted (some (.name "Crypt"))
        (stream_dict [("Name", .name "StdCF")]) 7 0
      = .ok (.file 0) xref_encrypted :=
  ⟨rfl, rfl, rfl, rfl, rfl⟩

/-- C18, amended: `build_filter` returns the input stream itself, with no
stage constructed, when the filter name is not one of the recognised names
(with a warning), when it is JPXDecode, when it is Crypt and the document has
no cipher context (with a warning), and when it is Crypt, the document has a
cipher context and the parameter map has no name-valued Name entry.  When the
filter is Crypt, the document has a cipher context and Name is a name, it
returns what the cipher subsystem returns for that key alias: the decrypt stage
scoped to the alias and the given object number and generation, wrapping the
input, when the alias resolves, and the input itself when it does not. -/
theorem build_filter_pass_through (load : pdf_xref → Int → Int → fz_outcome fz_buffer)
    (chain : fz_stream) (xref : pdf_xref) (f p : Option fz_obj) (num gen : Int) :
    (fz_to_name f ∉ recognised_filter_names →
      build_filter load chain xref f p num gen
        = .ok chain (fz_warn ("unknown filter name (" ++ fz_to_name f ++ ")") xref)) ∧
    (fz_to_name f = "JPXDecode" → build_filter load chain xref f p num gen = .ok chain xref) ∧
    (fz_to_name f = "Crypt" → xref.crypt = none →
      build_filter load chain xref f p num gen
        = .ok chain (fz_warn "crypt filter in unencrypted document" xref)) ∧
    (fz_to_name f = "Crypt" → xref.crypt.isSome = true →
      fz_is_name (fz_dict_gets p "Name") = false →
      build_filter load chain xref f p num gen = .ok chain xref) ∧
    (∀ cr key_alias ctx, fz_to_name f = "Crypt" → xref.crypt = some cr →
      fz_dict_gets p "Name" = some (.name key_alias) →
      resolve_key_alias cr key_alias = some ctx →
      build_filter load chain xref f p num gen
        = .ok (.crypt_with_filter chain ctx key_alias num gen)
            (emit (.opened (.crypt_with_filter chain ctx key_alias num gen)) xref)) ∧
    (∀ cr key_alias, fz_to_name f = "Crypt" → xref.crypt = some cr →
      fz_dict_gets p "Name" = some (.name key_alias) →
      resolve_key_alias cr key_alias = none →
      build_filter load chain xref f p num gen = .ok chain xref) := by
  refine build_filter_cases load chain xref f p num gen
    (fun n r =>
      (n ∉ recognised_filter_names →
        r = .ok chain (fz_warn ("unknown filter name (" ++ n ++ ")") xref)) ∧
      (n = "JPXDecode" → r = .ok chain xref) ∧
      (n = "Crypt" → xref.crypt = none →
        r = .ok chain (fz_warn "crypt filter in unencrypted document" xref)) ∧
      (n = "Crypt" → xref.crypt.isSome = true →
        fz_is_name (fz_dict_gets p "Name") = false → r = .ok chain xref) ∧
      (∀ cr key_alias ctx, n = "Crypt" → xref.crypt = some cr →
        fz_dict_gets p "Name" = some (.name key_alias) →
        resolve_key_alias cr key_alias = some ctx →
        r = .ok (.crypt_with_filter chain ctx key_alias num gen)
              (emit (.opened (.crypt_with_filter chain ctx key_alias num gen)) xref)) ∧
      (∀ cr key_alias, n = "Crypt" → xref.crypt = some cr →
        fz_dict_gets p "Name" = some (.name key_alias) →
        resolve_key_alias cr key_alias = none → r = .ok chain xref))
    ?_ ?_ ?_ ?_ ?_ ?_ ?_ ?_ ?_ ?_ ?_ ?_ ?_ ?_ ?_ ?_ ?_ ?_ ?_
  · intro n hn; rcases hn with hn | hn <;> subst hn <;> simp [recognised_filter_names]
  · intro n hn; rcases hn with hn | hn <;> subst hn <;> simp [recognised_filter_names]
  · intro n hn; rcases hn with hn | hn <;> subst hn <;> simp [recognised_filter_names]
  · intro n hn; rcases hn with hn | hn <;> subst hn <;> simp [recognised_filter_names]
  · intro n hn; rcases hn with hn | hn <;> subst hn <;> simp [recognised_filter_names]
  · intro n hn _; rcases hn with hn | hn <;> subst hn <;> simp [recognised_filter_names]
  · intro n hn _; rcases hn with hn | hn <;> subst hn <;> simp [recognised_filter_names]
  · intro n hn _; rcases hn with hn | hn <;> subst hn <;> simp [recognised_filter_names]
  · intro n hn _; rcases hn with hn | hn <;> subst hn <;> simp [recognised_filter_names]
  · intro n hn o _ g x1 _; subst hn; simp [recognised_filter_names]
  · intro n hn o _ e x1 _; subst hn; simp [recognised_filter_names]
  · intro n hn o _ _; subst hn; simp [recognised_filter_names]
  · intro n hn _; subst hn; simp [recognised_filter_names]
  · intro n hn; subst hn; simp [recognised_filter_names]
  · intro n hn hc; subst hn; simp [recognised_filter_names, hc, fz_warn]
  · intro n hn cr hc hnm ctx hres; subst hn
    refine ⟨by simp [recognised_filter_names], by simp, by simp [hc], by simp [hnm], ?_, ?_⟩
    · intro cr2 key_alias ctx2 _ hc2 ha hres2
      rw [hc] at hc2
      injection hc2 with hc2
      subst hc2
      rw [ha] at hres
      simp only [fz_to_name] at hres
      rw [hres] at hres2
      injection hres2 with hres2
      subst hres2
      simp [ha, fz_to_name]
    · intro cr2 key_alias _ hc2 ha hres2
      rw [hc] at hc2
      injection hc2 with hc2
      subst hc2
      rw [ha] at hres
      simp only [fz_to_name] at hres
      rw [hres] at hres2
      cases hres2
  · intro n hn cr hc hnm hres; subst hn
    refine ⟨by simp [recognised_filter_names], by simp, by simp [hc], by simp, ?_, ?_⟩
    · intro cr2 key_alias ctx2 _ hc2 ha hres2
      rw [hc] at hc2
      injection hc2 with hc2
      subst hc2
      rw [ha] at hres
      simp only [fz_to_name] at hres
      rw [hres] at hres2
      cases hres2
    · intro _ _ _ _ _ _
      rfl
  · intro n hn cr hc hnm; subst hn
    refine ⟨by simp [recognised_filter_names], by simp, by simp [hc], by simp, ?_, ?_⟩
    · intro cr2 key_alias ctx2 _ _ ha _
      rw [ha] at hnm
      simp [fz_is_name] at hnm
    · intro _ _ _ _ _ _
      rfl
  · intro n h1 h2 h3 h4 h5 h6 h7 h8 h9 h10
    refine ⟨fun _ => rfl, fun h => absurd h h9, fun h => absurd h h10, fun h => absurd h h10,
      fun _ _ _ h => absurd h h10, fun _ _ h => absurd h h10⟩

/-- C18, amended, at six calls: the unknown name `Foo`, JPXDecode, Crypt in an
unencrypted document, Crypt in an encrypted document without a name-valued
Name, Crypt with the Name `StdCF` in a document whose cipher context resolves
it, and Crypt with the Name `Other`, which that context does not resolve. -/
theorem build_filter_pass_through_witness :
    (fz_to_name (some (.name "Foo")) ∉ recognised_filter_names ∧
      build_filter (fun _ _ _ => .diverge) (.file 0) xref_empty (some (.name "Foo")) none 7 0
        = .ok (.file 0) { xref_empty with trace := [.warn "unknown filter name (Foo)"] }) ∧
    (fz_to_name (some (.name "JPXDecode")) = "JPXDecode" ∧
      build_filter (fun _ _ _ => .diverge) (.file 0) xref_empty (some (.name "JPXDecode"))
        none 7 0 = .ok (.file 0) xref_empty) ∧
    ((fz_to_name (some (.name "Crypt")) = "Crypt" ∧ xref_empty.crypt = none) ∧
      build_filter (fun _ _ _ => .diverge) (.file 0) xref_empty (some (.name "Crypt"))
          (stream_dict [("Name", .name "StdCF")]) 7 0
        = .ok (.file 0)
            { xref_empty with trace := [.warn "crypt filter in unencrypted document"] }) ∧
    ((fz_to_name (some (.name "Crypt")) = "Crypt" ∧ xref_encrypted.crypt.isSome = true ∧
        fz_is_name (fz_dict_gets (stream_dict [("Name", .int 3)]) "Name") = false) ∧
      build_filter (fun _ _ _ => .diverge) (.file 0) xref_encrypted (some (.name "Crypt"))
          (stream_dict [("Name", .int 3)]) 7 0
        = .ok (.file 0) xref_encrypted) ∧
    ((fz_to_name (some (.name "Crypt")) = "Crypt" ∧
        xref_encrypted_cf.crypt = some { key := [1], aliases := [("StdCF", [2])] } ∧
        fz_dict_gets (stream_dict [("Name", .name "StdCF")]) "Name" = some (.name "StdCF") ∧
        resolve_key_alias { key := [1], aliases := [("StdCF", [2])] } "StdCF"
          = some { key := [2], aliases := [("StdCF", [2])] }) ∧
      build_filter (fun _ _ _ => .diverge) (.file 0) xref_encrypted_cf (some (.name "Crypt"))
          (stream_dict [("Name", .name "StdCF")]) 7 0
        = .ok (.crypt_with_filter (.file 0) { key := [2], aliases := [("StdCF", [2])] }
              "StdCF" 7 0)
            (emit (.opened (.crypt_with_filter (.file 0)
              { key := [2], aliases := [("StdCF", [2])] } "StdCF" 7 0)) xref_encrypted_cf)) ∧
    ((fz_to_name (some (.name "Crypt")) = "Crypt" ∧
        xref_encrypted_cf.crypt = some { key := [1], aliases := [("StdCF", [2])] } ∧
        fz_dict_gets (stream_dict [("Name", .name "Other")]) "Name" = some (.name "Other") ∧
        resolve_key_alias { key := [1], aliases := [("StdCF", [2])] } "Other" = none) ∧
      build_filter (fun _ _ _ => .diverge) (.file 0) xref_encrypted_cf (some (.name "Crypt"))
          (stream_dict [("Name", .name "Other")]) 7 0
        = .ok (.file 0) xref_encrypted_cf) :=
  ⟨⟨by decide,
    (build_filter_pass_through (fun _ _ _ => .diverge) (.file 0) xref_empty
      (some (.name "Foo")) none 7 0).1 (by decide)⟩,
   ⟨rfl,
    (build_filter_pass_through (fun _ _ _ => .diverge) (.file 0) xref_empty
      (some (.name "JPXDecode")) none 7 0).2.1 rfl⟩,
   ⟨⟨rfl, rfl⟩,
    (build_filter_pass_through (fun _ _ _ => .diverge) (.file 0) xref_empty
      (some (.name "Crypt")) (stream_dict [("Name", .name "StdCF")]) 7 0).2.2.1 rfl rfl⟩,
   ⟨⟨rfl, rfl, rfl⟩,
    (build_filter_pass_through (fun _ _ _ => .diverge) (.file 0) xref_encrypted
      (some (.name "Crypt")) (stream_dict [("Name", .int 3)]) 7 0).2.2.2.1 rfl rfl rfl⟩,
   ⟨⟨rfl, rfl, rfl, rfl⟩,
    (build_filter_pass_through (fun _ _ _ => .diverge) (.file 0) xref_encrypted_cf
      (some (.name "Crypt")) (stream_dict [("Name", .name "StdCF")]) 7 0).2.2.2.2.1
      { key := [1], aliases := [("StdCF", [2])] } "StdCF"
      { key := [2], aliases := [("StdCF", [2])] } rfl rfl rfl rfl⟩,
   ⟨⟨rfl, rfl, rfl, rfl⟩,
    (build_filter_pass_through (fun _ _ _ => .diverge) (.file 0) xref_encrypted_cf
      (some (.name "Crypt")) (stream_dict [("Name", .name "Other")]) 7 0).2.2.2.2.2
      { key := [1], aliases := [("StdCF", [2])] } "Other" rfl rfl rfl rfl⟩⟩

theorem build_filter_throw (load : pdf_xref → Int → Int → fz_outcome fz_buffer)
    (chain : fz_stream) (xref : pdf_xref) (f p : Option fz_obj) (num gen : Int)
    (e : fz_error) (x1 : pdf_xref) (h : build_filter load chain xref f p num gen = .throw e x1) :
    ∃ x n g, load x n g = .throw e x1 := by
  revert h
  refine build_filter_cases load chain xref f p num gen
    (fun _ r => r = .throw e x1 → ∃ x n g, load x n g = .throw e x1)
    ?_ ?_ ?_ ?_ ?_ ?_ ?_ ?_ ?_ ?_ ?_ ?_ ?_ ?_ ?_ ?_ ?_ ?_ ?_
  · intro n _ h; cases h
  · intro n _ h; cases h
  · intro n _ h; cases h
  · intro n _ h; cases h
  · intro n _ h; cases h
  · intro n _ _ h; cases h
  · intro n _ _ h; cases h
  · intro n _ _ h; cases h
  · intro n _ _ h; cases h
  · intro n _ o _ g x2 _ h; cases h
  · intro n _ o _ e2 x2 hl h
    injection h with h1 h2
    subst h1 h2
    exact ⟨_, _, _, hl⟩
  · intro n _ o _ _ h; cases h
  · intro n _ _ h; cases h
  · intro n _ h; cases h
  · intro n _ _ h; cases h
  · intro n _ cr _ _ ctx _ h; cases h
  · intro n _ cr _ _ _ h; cases h
  · intro n _ cr _ _ h; cases h
  · intro n _ _ _ _ _ _ _ _ _ _ h; cases h

theorem build_filter_chain_loop_throw (load : pdf_xref → Int → Int → fz_outcome fz_buffer)
    (fs ps : Option fz_obj) (num gen : Int) (idx : List Nat) :
    ∀ (chain : fz_stream) (xref : pdf_xref) (e : fz_error) (x1 : pdf_xref),
      build_filter_chain_loop load fs ps num gen idx chain xref = .throw e x1 →
      ∃ x n g, load x n g = .throw e x1 := by
  induction idx with
  | nil =>
    intro chain xref e x1 h
    simp [build_filter_chain_loop] at h
  | cons i rest ih =>
    intro chain xref e x1 h
    simp only [build_filter_chain_loop] at h
    cases hb : build_filter load chain xref (fz_array_get fs i) (fz_array_get ps i) num gen with
    | ok c x =>
      rw [hb] at h
      exact ih _ _ _ _ h
    | throw e2 x =>
      rw [hb] at h
      simp only at h
      injection h with h1 h2
      subst h1 h2
      exact build_filter_throw load chain xref _ _ num gen _ _ hb
    | diverge => rw [hb] at h; simp at h

theorem pdf_open_raw_filter_throw (env : fz_env) (chain : fz_stream) (xref : pdf_xref)
    (stmobj : Option fz_obj) (num gen : Int) (e : fz_error) (x1 : pdf_xref)
    (h : pdf_open_raw_filter env chain xref stmobj num gen = .throw e x1) :
    ∃ cr, xref.crypt = some cr ∧ env.pdf_open_crypt_error cr num gen = some e := by
  unfold pdf_open_raw_filter at h
  simp only [fz_open_null, opened, fz_keep_stream, emit_crypt] at h
  cases hcr : xref.crypt with
  | none => rw [hcr] at h; simp at h
  | some cr =>
    rw [hcr] at h
    cases hh : pdf_stream_has_crypt stmobj with
    | true => rw [hh] at h; simp at h
    | false =>
      rw [hh] at h
      simp only [Bool.not_false, if_true, pdf_open_crypt] at h
      cases he : env.pdf_open_crypt_error cr num gen with
      | some e2 =>
        rw [he] at h
        simp only at h
        injection h with h1 _
        subst h1
        exact ⟨cr, rfl, he⟩
      | none => rw [he] at h; simp at h

theorem pdf_open_filter_throw (env : fz_env)
    (load : pdf_xref → Int → Int → fz_outcome fz_buffer)
    (chain : fz_stream) (xref : pdf_xref) (stmobj : Option fz_obj) (num gen : Int)
    (e : fz_error) (x1 : pdf_xref)
    (h : pdf_open_filter env load chain xref stmobj num gen = .throw e x1) :
    (∃ cr, xref.crypt = some cr ∧ env.pdf_open_crypt_error cr num gen = some e) ∨
      ∃ x n g, load x n g = .throw e x1 := by
  unfold pdf_open_filter at h
  cases hr : pdf_open_raw_filter env chain xref stmobj num gen with
  | ok raw x0 =>
    rw [hr] at h
    simp only at h
    split_ifs at h with h1 h2
    · exact Or.inr (build_filter_throw load raw x0 _ _ num gen e x1 h)
    · exact Or.inr (build_filter_chain_loop_throw load _ _ num gen _ raw x0 e x1 h)
  | throw e2 x0 =>
    rw [hr] at h
    simp only at h
    injection h with h1 h2
    subst h1 h2
    exact Or.inl (pdf_open_raw_filter_throw env chain xref stmobj num gen _ _ hr)
  | diverge => rw [hr] at h; simp at h

/-- C19, as stated, fails for `pdf_open_stream`: for object 1 of a document of
two objects, a JBIG2 stream, `pdf_is_stream` returns non-zero, and
`pdf_open_stream` raises the not-a-stream error when the JBIG2 globals name
object 0, which is not a stream, and the out-of-range error when they name
object 7: both are raised by the load of the globals and passed on. -/
theorem pdf_open_stream_raises_after_is_stream :
    pdf_is_stream env_quiet (xref_jbig2 0) 1 0 = .ok true (xref_jbig2 0) ∧
    pdf_open_stream env_quiet (pdf_load_stream env_quiet 1) (xref_jbig2 0) 1 0
      = .throw .not_a_stream
          { xref_jbig2 0 with trace := [.keep (.file 0), .opened (.null (.file 0) 10)] } ∧
    pdf_is_stream env_quiet (xref_jbig2 7) 1 0 = .ok true (xref_jbig2 7) ∧
    pdf_open_stream env_quiet (pdf_load_stream env_quiet 1) (xref_jbig2 7) 1 0
      = .throw (.object_out_of_range 7 0)
          { xref_jbig2 7 with trace := [.keep (.file 0), .opened (.null (.file 0) 10)] } :=
  ⟨rfl, rfl, rfl, rfl⟩

/-- C19, amended: `pdf_is_stream` returns 0 for an object number below 0 or
not below the table length, in the unchanged state (the table is not read).
Whenever `pdf_is_stream` returns non-zero, `pdf_open_raw_stream` and
`pdf_open_stream` on the same state and id pass their own range and stream
checks: an error `pdf_open_raw_stream` raises was raised by the cipher
subsystem for the decrypt stage, and an error `pdf_open_stream` raises was
raised by the cipher subsystem or by the load of the JBIG2 globals of a filter
stage. -/
theorem pdf_is_stream_guards (env : fz_env)
    (load : pdf_xref → Int → Int → fz_outcome fz_buffer) (xref : pdf_xref) (num gen : Int) :
    ((num < 0 ∨ num ≥ xref.len) → pdf_is_stream env xref num gen = .ok false xref) ∧
    (∀ x1, pdf_is_stream env xref num gen = .ok true x1 →
      (∀ e x2, pdf_open_raw_stream env xref num gen = .throw e x2 →
        ∃ cr, x1.crypt = some cr ∧ env.pdf_open_crypt_error cr num gen = some e) ∧
      (∀ e x2, pdf_open_stream env load xref num gen = .throw e x2 →
        (∃ cr, x1.crypt = some cr ∧ env.pdf_open_crypt_error cr num gen = some e) ∨
          ∃ x n g, load x n g = .throw e x2)) := by
  constructor
  · intro h
    simp [pdf_is_stream, h]
  · intro x1 h
    unfold pdf_is_stream at h
    by_cases hr : num < 0 ∨ num ≥ xref.len
    · rw [if_pos hr] at h
      injection h with h1 _
      cases h1
    rw [if_neg hr] at h
    cases hc : env.pdf_cache_object xref num gen with
    | ok u x0 =>
      rw [hc] at h
      simp only at h
      injection h with h1 h2
      subst h2
      have hpos : (table_entry x0 num).stm_ofs > 0 := of_decide_eq_true h1
      have hne : (table_entry x0 num).stm_ofs ≠ 0 := by omega
      constructor
      · intro e x2 ht
        unfold pdf_open_raw_stream at ht
        rw [if_neg hr, hc] at ht
        simp only [if_neg hne] at ht
        cases hf : pdf_open_raw_filter env x0.file x0 (table_entry x0 num).obj num gen with
        | ok s x3 => rw [hf] at ht; simp at ht
        | throw e2 x3 =>
          rw [hf] at ht
          simp only at ht
          injection ht with h3 _
          subst h3
          exact pdf_open_raw_filter_throw env _ _ _ num gen _ _ hf
        | diverge => rw [hf] at ht; simp at ht
      · intro e x2 ht
        unfold pdf_open_stream at ht
        rw [if_neg hr, hc] at ht
        simp only [if_neg hne] at ht
        cases hf : pdf_open_filter env load x0.file x0 (table_entry x0 num).obj num gen with
        | ok s x3 => rw [hf] at ht; simp at ht
        | throw e2 x3 =>
          rw [hf] at ht
          simp only at ht
          injection ht with h3 h4
          subst h3 h4
          exact pdf_open_filter_throw env load _ _ _ num gen _ _ hf
        | diverge => rw [hf] at ht; simp at ht
    | throw e x0 => rw [hc] at h; simp at h
    | diverge => rw [hc] at h; simp at h

/-- C19, amended, at three calls: object 5 of a document of two objects is
out of range; for the stream object 1 of an encrypted document whose cipher
throws, the error of `pdf_open_raw_stream` is the cipher's; for the JBIG2
stream whose globals are not a stream, the error of `pdf_open_stream` is the
one the load of the globals raised. -/
theorem pdf_is_stream_guards_witness :
    (((5 : Int) < 0 ∨ (5 : Int) ≥ xref_two.len) ∧
      pdf_is_stream env_quiet xref_two 5 0 = .ok false xref_two) ∧
    (pdf_is_stream env_crypt_fails xref_two_encrypted 1 0 = .ok true xref_two_encrypted ∧
      pdf_open_raw_stream env_crypt_fails xref_two_encrypted 1 0
        = .throw (.other "cannot open crypt")
            { xref_two_encrypted with
              trace := [.keep (.file 0), .opened (.null (.file 0) 10),
                .closed (.null (.file 0) 10)] } ∧
      ∃ cr, xref_two_encrypted.crypt = some cr ∧
        env_crypt_fails.pdf_open_crypt_error cr 1 0 = some (.other "cannot open crypt")) ∧
    (pdf_is_stream env_quiet (xref_jbig2 0) 1 0 = .ok true (xref_jbig2 0) ∧
      pdf_open_stream env_quiet (pdf_load_stream env_quiet 1) (xref_jbig2 0) 1 0
        = .throw .not_a_stream
            { xref_jbig2 0 with trace := [.keep (.file 0), .opened (.null (.file 0) 10)] } ∧
      ((∃ cr, (xref_jbig2 0).crypt = some cr ∧
          env_quiet.pdf_open_crypt_error cr 1 0 = some .not_a_stream) ∨
        ∃ x n g, pdf_load_stream env_quiet 1 x n g
          = .throw .not_a_stream
              { xref_jbig2 0 with trace := [.keep (.file 0), .opened (.null (.file 0) 10)] })) :=
  ⟨⟨by decide, (pdf_is_stream_guards env_quiet (fun _ _ _ => .diverge) xref_two 5 0).1
      (by decide)⟩,
   ⟨rfl, rfl,
    ((pdf_is_stream_guards env_crypt_fails (fun _ _ _ => .diverge) xref_two_encrypted 1 0).2
      _ rfl).1 _ _ rfl⟩,
   ⟨rfl, rfl,
    ((pdf_is_stream_guards env_quiet (pdf_load_stream env_quiet 1) (xref_jbig2 0) 1 0).2
      _ rfl).2 _ _ rfl⟩⟩

/-- C20: the estimate `pdf_load_stream` computes for a dictionary whose Filter
is the single name `f` equals the estimate for a dictionary whose Filter is the
one-element sequence `[f]`, and both are one application of
`pdf_guess_filter_length`.  For every Filter value either the per-element loop
runs no step or the single-name step leaves the length unchanged, so the two
never both apply a correction. -/
theorem pdf_load_stream_estimate_single_name (len : Int) (f : String) :
    pdf_load_stream_estimate (dict_with_filter len (.name f))
      = pdf_load_stream_estimate (dict_with_filter len (.array [.name f])) ∧
    pdf_load_stream_estimate (dict_with_filter len (.name f))
      = pdf_guess_filter_length len f ∧
    (∀ obj : Option fz_obj, fz_array_len obj = 0 ∨
      pdf_guess_filter_length len (fz_to_name obj) = len) := by
  have h1 : pdf_load_stream_estimate (dict_with_filter len (.name f))
      = pdf_guess_filter_length len f := by
    rw [pdf_load_stream_estimate_eq_foldl]
    simp [dict_with_filter, stream_dict, fz_dict_gets, List.lookup, filter_names, fz_to_int]
  have h2 : pdf_load_stream_estimate (dict_with_filter len (.array [.name f]))
      = pdf_guess_filter_length len f := by
    rw [pdf_load_stream_estimate_eq_foldl]
    simp [dict_with_filter, stream_dict, fz_dict_gets, List.lookup, filter_names, fz_to_int,
      fz_to_name]
  refine ⟨h1.trans h2.symm, h1, ?_⟩
  intro obj
  cases obj with
  | none => exact Or.inl rfl
  | some o =>
    cases o with
    | array items => exact Or.inr (pdf_guess_filter_length_empty len)
    | name s => exact Or.inl rfl
    | null => exact Or.inl rfl
    | bool b => exact Or.inl rfl
    | int i => exact Or.inl rfl
    | string s => exact Or.inl rfl
    | dict d => exact Or.inl rfl
    | indirect n g => exact Or.inl rfl

end PdfStream
